import Mathlib

/-!
# The Telegram front end of the router bot (`bot/telegram/bot.go`)

A shallow embedding of `TelegramBot` and its handlers.

* Go maps are partial functions (`GoMap`); reading a missing key yields the zero value.
* Go strings are Lean strings (sequences of Unicode scalar values, i.e. valid UTF-8).
* The transport context `tele.Context` is reduced to what the handlers read from it
  (`Sender().ID`, `Args()`, `Callback() != nil`); what they do to it (`Send`, `Respond`)
  is recorded, in order, in a list of `Effect`s together with every Router call.
* The Router collaborator is a record of state-passing operations over an arbitrary
  router state `ρ`, so every theorem quantifies over every Router behaviour.
* A Go runtime panic (index out of range) is an explicit `Exit.panicked`.
* Theorems hold for every argument list unless they say where the list comes from:
  `messageArgs` is the list of a text command, `callbackArgs` that of a selected item.
-/

namespace Telegram

/-! ## Go values -/

/-- Go `map[κ]ν`: a key is either absent (`none`) or bound to a value. -/
abbrev GoMap (κ ν : Type) := κ → Option ν

/-- The map built by `make(map[κ]ν, 0)`. -/
def GoMap.empty {κ ν : Type} : GoMap κ ν := fun _ => none

/-- Go `m[k]` as an expression: the bound value, or the zero value `zero` when `k` is absent. -/
def GoMap.index {κ ν : Type} (zero : ν) (m : GoMap κ ν) (k : κ) : ν := (m k).getD zero

/-- Go `m[k] = v`. -/
def GoMap.store {κ ν : Type} [DecidableEq κ] (m : GoMap κ ν) (k : κ) (v : ν) : GoMap κ ν :=
  fun j => if j = k then some v else m j

/-- Go `unicode.IsSpace`: the Latin-1 spaces and the other code points with the
Unicode White_Space property. -/
def isSpace (c : Char) : Bool :=
  let n := c.toNat
  n == 0x09 || n == 0x0A || n == 0x0B || n == 0x0C || n == 0x0D || n == 0x20
    || n == 0x85 || n == 0xA0 || n == 0x1680 || (decide (0x2000 ≤ n) && decide (n ≤ 0x200A))
    || n == 0x2028 || n == 0x2029 || n == 0x202F || n == 0x205F || n == 0x3000

/-- Go `strings.TrimSpace`: the string without its leading and trailing white space. -/
def TrimSpace (s : String) : String :=
  String.mk ((s.data.dropWhile isSpace).reverse.dropWhile isSpace).reverse

/-- The ASCII branch of `strings.ToUpper`: `c -= 'a' - 'A'` on `'a'..'z'`. -/
def upperASCII (c : Char) : Char :=
  if decide ('a' ≤ c) && decide (c ≤ 'z') then Char.ofNat (c.toNat - 32) else c

/-- Go `strings.ToUpper`: ASCII-only strings take the byte-wise branch, any other
string is mapped rune by rune through `unicode.ToUpper`, whose case tables are the
parameter `unicodeToUpper`. -/
def ToUpper (unicodeToUpper : Char → Char) (s : String) : String :=
  if s.data.all (fun c => decide (c.toNat < 128)) then String.mk (s.data.map upperASCII)
  else String.mk (s.data.map unicodeToUpper)

/-- What the handlers read from their surroundings: the configured secret
`viper.GetString("telegram.password")` and the case tables behind `strings.ToUpper`. -/
structure Env where
  password : String
  unicodeToUpper : Char → Char

/-! ## The Router collaborator -/

/-- A Go `error` value that is not nil; its content is never inspected. -/
abbrev Error := String

/-- Modelled from the spec: the `routers.Device` record (package `routers` is not part of
the sources at hand); the two fields the bot reads, `MacAddress` and `Name`. -/
structure Device where
  MacAddress : String
  Name : String
  deriving DecidableEq

/-- Modelled from the spec: the `routers.Router` interface (package `routers` is not part
of the sources at hand), with the operations the bot calls. Each operation may fail
(`some err`, Go `err != nil`) and may change the router state `ρ` in any way. -/
structure Router (ρ : Type) where
  RefreshToken : ρ → Option Error × ρ
  ListDevices : ρ → (List Device × Option Error) × ρ
  GetFilteredDevices : ρ → (List Device × Option Error) × ρ
  FilterDeviceByMac : String → ρ → Option Error × ρ
  UnfilterDeviceByMac : String → ρ → Option Error × ρ
  ClearMacFilters : ρ → Option Error × ρ

/-- One call of a Router operation, with its argument. -/
inductive RouterCall where
  | RefreshToken
  | ListDevices
  | GetFilteredDevices
  | FilterDeviceByMac (mac : String)
  | UnfilterDeviceByMac (mac : String)
  | ClearMacFilters
  deriving DecidableEq

/-! ## The transport -/

/-- A telebot `Btn` as built by `menu.Data(text, unique, data...)`. -/
structure Btn where
  Unique : String
  Text : String
  Data : String
  deriving DecidableEq

/-- A telebot `ReplyMarkup`: the reply keyboard (rows of button texts) and the inline
keyboard (rows of data buttons). -/
structure ReplyMarkup where
  ForceReply : Bool
  ResizeKeyboard : Bool
  ReplyKeyboard : List (List String)
  InlineKeyboard : List (List Btn)
  deriving DecidableEq

/-- What a handler does to the outside world, in order of occurrence. -/
inductive Effect where
  | send (what : String) (markup : Option ReplyMarkup)
  | respond
  | router (call : RouterCall)
  deriving DecidableEq

/-- What a handler reads from `tele.Context`: `c.Sender().ID`, `c.Args()` and
whether `c.Callback() != nil`. -/
structure Context where
  Sender : Int
  Args : List String
  Callback : Bool
  deriving DecidableEq

/-- The mutable part of `TelegramBot`. -/
structure TelegramBot where
  authGroup : GoMap Int Bool
  nameCache : GoMap String String

/-- How a handler call ends: it returns, or a runtime panic unwinds it. -/
inductive Exit where
  | returned
  | panicked
  deriving DecidableEq

/-- The result of running a handler: the bot state, the router state, the effects
produced by this run and the way it ended. -/
structure Outcome (ρ : Type) where
  bot : TelegramBot
  router : ρ
  effects : List Effect
  exit : Exit

/-- A telebot `HandlerFunc`, run on a bot state and a router state. -/
abbrev HandlerFunc (ρ : Type) := Context → TelegramBot → ρ → Outcome ρ

/-- The Router calls among a list of effects. -/
def routerCalls : List Effect → List RouterCall
  | [] => []
  | Effect.router call :: es => call :: routerCalls es
  | _ :: es => routerCalls es

/-- The replies (`c.Send`) among a list of effects. -/
def sends : List Effect → List (String × Option ReplyMarkup)
  | [] => []
  | Effect.send what markup :: es => (what, markup) :: sends es
  | _ :: es => sends es

/-- The number of acknowledgements (`c.Respond`) among a list of effects. -/
def responds : List Effect → Nat
  | [] => 0
  | Effect.respond :: es => responds es + 1
  | _ :: es => responds es

/-! ## The handlers -/

/-- Go `return c.Send(what)` / `return c.Send(what, menu)`. -/
def Send {ρ : Type} (t : TelegramBot) (r : ρ) (what : String) (markup : Option ReplyMarkup) :
    Outcome ρ :=
  ⟨t, r, [Effect.send what markup], Exit.returned⟩

/-- The `TelegramBot` built by `NewTelegramBot`: both maps empty. -/
def NewTelegramBot : TelegramBot := ⟨GoMap.empty, GoMap.empty⟩

/-- Method `TelegramBot.LockMiddleware`: the acknowledgement is deferred, so it runs
after the body, also when the body panics. -/
def LockMiddleware {ρ : Type} (next : HandlerFunc ρ) : HandlerFunc ρ := fun c t r =>
  let body : Outcome ρ :=
    if GoMap.index false t.authGroup c.Sender then next c t r
    else Send t r "You are not authenticated.\nPlease use\n\n/login PASSWORD\n\nto authenticate" none
  if c.Callback then { body with effects := body.effects ++ [Effect.respond] } else body

/-- Method `TelegramBot.Login`. -/
def Login {ρ : Type} (env : Env) : HandlerFunc ρ := fun c t r =>
  match c.Args with
  | [] => Send t r "Please use\n\n/login PASSWORD\n\nto authenticate" none
  | a :: _ =>
    if a = env.password then
      Send { t with authGroup := t.authGroup.store c.Sender true } r "Login successful" none
    else Send t r "Wrong password" none

/-- Method `TelegramBot.ReauthenticateRouter`. -/
def ReauthenticateRouter {ρ : Type} (R : Router ρ) : HandlerFunc ρ := fun _ t r =>
  match R.RefreshToken r with
  | (some _, r1) =>
    ⟨t, r1, [Effect.router RouterCall.RefreshToken,
      Effect.send "Failed to reauthenticate the router" none], Exit.returned⟩
  | (none, r1) =>
    ⟨t, r1, [Effect.router RouterCall.RefreshToken,
      Effect.send "Router reauthenticated successfully" none], Exit.returned⟩

/-- The loop body of `BlacklistMac` on the bot state:
`t.nameCache[strings.ToUpper(d.MacAddress)] = d.Name`. -/
def remember (env : Env) (t : TelegramBot) (d : Device) : TelegramBot :=
  { t with nameCache := t.nameCache.store (ToUpper env.unicodeToUpper d.MacAddress) d.Name }

/-- The button built for device `d` with name `name`:
`menu.Data(fmt.Sprintf("%s (%s)", d.MacAddress, name), unique, d.MacAddress)`. -/
def deviceBtn (unique : String) (d : Device) (name : String) : Btn :=
  ⟨unique, d.MacAddress ++ " (" ++ name ++ ")", d.MacAddress⟩

/-- The markup `&tele.ReplyMarkup{}` after `menu.Inline(options...)`. -/
def inlineMenu (options : List (List Btn)) : ReplyMarkup := ⟨false, false, [], options⟩

/-- Method `TelegramBot.BlacklistMac`. -/
def BlacklistMac {ρ : Type} (env : Env) (R : Router ρ) : HandlerFunc ρ := fun _ t r =>
  match R.ListDevices r with
  | ((_, some _), r1) =>
    ⟨t, r1, [Effect.router RouterCall.ListDevices, Effect.send "Failed to list devices" none],
      Exit.returned⟩
  | ((devices, none), r1) =>
    ⟨devices.foldl (remember env) t, r1,
      [Effect.router RouterCall.ListDevices,
        Effect.send "Choose the device to block:"
          (some (inlineMenu (devices.map (fun d => [deviceBtn "/block" d d.Name]))))],
      Exit.returned⟩

/-- The name `WhitelistMac` displays for a device: the cached name of its uppercased MAC
when that is not empty, the reported name otherwise. -/
def shownName (env : Env) (t : TelegramBot) (d : Device) : String :=
  let cachedName := GoMap.index "" t.nameCache (ToUpper env.unicodeToUpper d.MacAddress)
  if cachedName ≠ "" then cachedName else d.Name

/-- Method `TelegramBot.WhitelistMac`. -/
def WhitelistMac {ρ : Type} (env : Env) (R : Router ρ) : HandlerFunc ρ := fun _ t r =>
  match R.GetFilteredDevices r with
  | ((_, some _), r1) =>
    ⟨t, r1, [Effect.router RouterCall.GetFilteredDevices,
      Effect.send "Failed to show blacklist" none], Exit.returned⟩
  | ((devices, none), r1) =>
    if devices.length = 0 then
      ⟨t, r1, [Effect.router RouterCall.GetFilteredDevices,
        Effect.send "No devices are blocked" none], Exit.returned⟩
    else
      ⟨t, r1,
        [Effect.router RouterCall.GetFilteredDevices,
          Effect.send "Choose the device to unblock:"
            (some (inlineMenu
              (devices.map (fun d => [deviceBtn "/unblock" d (shownName env t d)]))))],
        Exit.returned⟩

/-- Method `TelegramBot.ClearBlacklist`. -/
def ClearBlacklist {ρ : Type} (R : Router ρ) : HandlerFunc ρ := fun _ t r =>
  match R.ClearMacFilters r with
  | (some _, r1) =>
    ⟨t, r1, [Effect.router RouterCall.ClearMacFilters,
      Effect.send "Failed to clear MAC filters" none], Exit.returned⟩
  | (none, r1) =>
    ⟨t, r1, [Effect.router RouterCall.ClearMacFilters,
      Effect.send "All devices are allowed now" none], Exit.returned⟩

/-- Method `TelegramBot.OnCallback`. The index expressions `c.Args()[0]` and
`c.Args()[1]` panic when the list is too short; `c.Args()[1]` is evaluated before
the Router is called. -/
def OnCallback {ρ : Type} (R : Router ρ) : HandlerFunc ρ := fun c t r =>
  match c.Args[0]? with
  | none => ⟨t, r, [], Exit.panicked⟩
  | some a0 =>
    let command := TrimSpace a0
    if command = "/unblock" then
      match c.Args[1]? with
      | none => ⟨t, r, [], Exit.panicked⟩
      | some mac =>
        match R.UnfilterDeviceByMac mac r with
        | (some _, r1) =>
          ⟨t, r1, [Effect.router (RouterCall.UnfilterDeviceByMac mac),
            Effect.send "Failed to unblock the device" none], Exit.returned⟩
        | (none, r1) =>
          ⟨t, r1, [Effect.router (RouterCall.UnfilterDeviceByMac mac),
            Effect.send ("Device " ++ mac ++ " unblocked successfully") none], Exit.returned⟩
    else if command = "/block" then
      match c.Args[1]? with
      | none => ⟨t, r, [], Exit.panicked⟩
      | some mac =>
        match R.FilterDeviceByMac mac r with
        | (some _, r1) =>
          ⟨t, r1, [Effect.router (RouterCall.FilterDeviceByMac mac),
            Effect.send "Failed to block the device" none], Exit.returned⟩
        | (none, r1) =>
          ⟨t, r1, [Effect.router (RouterCall.FilterDeviceByMac mac),
            Effect.send ("Device " ++ mac ++ " blocked successfully") none], Exit.returned⟩
    else Send t r "Invalid command" none

/-! ## Dispatch -/

/-- The endpoints registered by `Start` with `b.Handle`. -/
inductive Endpoint where
  | start
  | login
  | btnReauthenticateRouter
  | btnWhitelistMac
  | btnBlacklistMac
  | btnClearBlacklist
  | onCallback
  deriving DecidableEq

/-- The reply keyboard built in `Start`. -/
def startMenu : ReplyMarkup :=
  ⟨true, true,
    [["🔐 Reauth Router"], ["👎 Deny MAC", "👍 Allow MAC"], ["🧹 Clear Blacklist"]], []⟩

/-- The handler `Start` registers for each endpoint, middleware applied. -/
def handle {ρ : Type} (env : Env) (R : Router ρ) : Endpoint → HandlerFunc ρ
  | Endpoint.start => fun _ t r =>
    Send t r "Hello!\nUse: \n\n/login PASSWORD\n\nto authenticate before using it"
      (some startMenu)
  | Endpoint.login => Login env
  | Endpoint.btnReauthenticateRouter => LockMiddleware (ReauthenticateRouter R)
  | Endpoint.btnWhitelistMac => LockMiddleware (WhitelistMac env R)
  | Endpoint.btnBlacklistMac => LockMiddleware (BlacklistMac env R)
  | Endpoint.btnClearBlacklist => LockMiddleware (ClearBlacklist R)
  | Endpoint.onCallback => LockMiddleware (OnCallback R)

/-- The endpoints registered with `LockMiddleware`. -/
def Endpoint.guarded : Endpoint → Bool
  | Endpoint.start => false
  | Endpoint.login => false
  | _ => true

/-- An inbound event: the endpoint it is routed to and its context. -/
structure Update where
  endpoint : Endpoint
  ctx : Context
  deriving DecidableEq

/-- The bot processing a sequence of inbound events one after the other, from bot
state `t` and router state `r`. A panic in a handler is not recovered and ends the
process: the result is `none`. -/
def runUpdates {ρ : Type} (env : Env) (R : Router ρ) :
    TelegramBot → ρ → List Update → Option (TelegramBot × ρ)
  | t, r, [] => some (t, r)
  | t, r, u :: us =>
    match handle env R u.endpoint u.ctx t r with
    | ⟨t1, r1, _, Exit.returned⟩ => runUpdates env R t1 r1 us
    | ⟨_, _, _, Exit.panicked⟩ => none

/-- An event that is a `/login` by `id` whose first argument is the configured password. -/
def Update.isLoginOf (env : Env) (id : Int) (u : Update) : Bool :=
  u.endpoint == Endpoint.login && u.ctx.Sender == id && u.ctx.Args.head? == some env.password

/-! ## Test fixtures -/

/-- An environment with password `secret`; the case tables leave non-ASCII runes alone. -/
def testEnv : Env := ⟨"secret", fun c => c⟩

/-- A Router over a unit state whose operations all succeed and which lists `ds`
as both the allowed and the denied devices. -/
def okRouter (ds : List Device) : Router Unit :=
  ⟨fun r => (none, r), fun r => ((ds, none), r), fun r => ((ds, none), r),
    fun _ r => (none, r), fun _ r => (none, r), fun r => (none, r)⟩

/-- A Router over a unit state whose operations all fail. -/
def failRouter : Router Unit :=
  ⟨fun r => (some "boom", r), fun r => (([], some "boom"), r), fun r => (([], some "boom"), r),
    fun _ r => (some "boom", r), fun _ r => (some "boom", r), fun r => (some "boom", r)⟩

/-- A Router whose state is a script of device lists: each listing call (allowed or
denied) returns the head of the script and drops it. -/
def scriptRouter : Router (List (List Device)) :=
  ⟨fun r => (none, r), fun r => ((r.headD [], none), r.tail),
    fun r => ((r.headD [], none), r.tail),
    fun _ r => (none, r), fun _ r => (none, r), fun r => (none, r)⟩

/-- An environment with password `secret` whose case tables capitalise the ASCII letters
and leave every other rune alone. -/
def upperEnv : Env := ⟨"secret", upperASCII⟩

/-- Modelled from the spec: the transport's delivery of a selected menu item, an argument
list of two positional fields (action string, then MAC string). The action field is the
button's `Unique` behind the transport's marker `marker`, the MAC field is the button's
`Data`. The transport (telebot) is not part of the sources at hand. -/
def callbackArgs (marker : String) (b : Btn) : List String := [marker ++ b.Unique, b.Data]

theorem Send_bot {ρ : Type} (t : TelegramBot) (r : ρ) (what : String)
    (markup : Option ReplyMarkup) : (Send t r what markup).bot = t := rfl

theorem foldl_remember_authGroup (env : Env) (ds : List Device) (t : TelegramBot) :
    (ds.foldl (remember env) t).authGroup = t.authGroup := by
  induction ds generalizing t with
  | nil => rfl
  | cons d ds ih => rw [List.foldl_cons, ih]; rfl

theorem ReauthenticateRouter_bot {ρ : Type} (R : Router ρ) (c : Context) (t : TelegramBot)
    (r : ρ) : (ReauthenticateRouter R c t r).bot = t := by
  unfold ReauthenticateRouter
  split <;> rfl

theorem ClearBlacklist_bot {ρ : Type} (R : Router ρ) (c : Context) (t : TelegramBot)
    (r : ρ) : (ClearBlacklist R c t r).bot = t := by
  unfold ClearBlacklist
  split <;> rfl

theorem WhitelistMac_bot {ρ : Type} (env : Env) (R : Router ρ) (c : Context)
    (t : TelegramBot) (r : ρ) : (WhitelistMac env R c t r).bot = t := by
  unfold WhitelistMac
  split
  · rfl
  · split <;> rfl

theorem OnCallback_bot {ρ : Type} (R : Router ρ) (c : Context) (t : TelegramBot)
    (r : ρ) : (OnCallback R c t r).bot = t := by
  unfold OnCallback
  split
  · rfl
  · dsimp only
    split_ifs <;> (repeat' split) <;> rfl

theorem BlacklistMac_authGroup {ρ : Type} (env : Env) (R : Router ρ) (c : Context)
    (t : TelegramBot) (r : ρ) : (BlacklistMac env R c t r).bot.authGroup = t.authGroup := by
  unfold BlacklistMac
  split
  · rfl
  · exact foldl_remember_authGroup env _ t

theorem LockMiddleware_authGroup {ρ : Type} (next : HandlerFunc ρ)
    (hnext : ∀ c t r, (next c t r).bot.authGroup = t.authGroup) (c : Context)
    (t : TelegramBot) (r : ρ) : (LockMiddleware next c t r).bot.authGroup = t.authGroup := by
  unfold LockMiddleware
  by_cases hc : c.Callback = true <;>
    by_cases ha : GoMap.index false t.authGroup c.Sender = true <;>
    simp [hc, ha, hnext, Send]

/-- Every handler but `Login` leaves `authGroup` as it is. -/
theorem handle_authGroup_of_ne_login {ρ : Type} (env : Env) (R : Router ρ) (e : Endpoint)
    (he : e ≠ Endpoint.login) (c : Context) (t : TelegramBot) (r : ρ) :
    (handle env R e c t r).bot.authGroup = t.authGroup := by
  cases e with
  | start => rfl
  | login => exact absurd rfl he
  | btnReauthenticateRouter =>
    exact LockMiddleware_authGroup _ (fun c t r => by rw [ReauthenticateRouter_bot]) c t r
  | btnWhitelistMac =>
    exact LockMiddleware_authGroup _ (fun c t r => by rw [WhitelistMac_bot]) c t r
  | btnBlacklistMac =>
    exact LockMiddleware_authGroup _ (fun c t r => BlacklistMac_authGroup env R c t r) c t r
  | btnClearBlacklist =>
    exact LockMiddleware_authGroup _ (fun c t r => by rw [ClearBlacklist_bot]) c t r
  | onCallback =>
    exact LockMiddleware_authGroup _ (fun c t r => by rw [OnCallback_bot]) c t r

/-- The entry of `id` in `authGroup` after `Login`. -/
theorem Login_authGroup_index {ρ : Type} (env : Env) (c : Context) (t : TelegramBot) (r : ρ)
    (id : Int) :
    GoMap.index false (Login env c t r).bot.authGroup id =
      ((c.Sender == id && c.Args.head? == some env.password)
        || GoMap.index false t.authGroup id) := by
  unfold Login
  rcases hargs : c.Args with _ | ⟨a, rest⟩
  · simp [Send]
  · by_cases ha : a = env.password
    · by_cases hid : id = c.Sender
      · simp [Send, ha, hid, GoMap.index, GoMap.store]
      · have hid2 : ¬ c.Sender = id := fun h => hid h.symm
        simp [Send, ha, hid, hid2, GoMap.index, GoMap.store]
    · simp [Send, ha]

/-- The entry of `id` in `authGroup` after any one event. -/
theorem handle_authGroup_index {ρ : Type} (env : Env) (R : Router ρ) (u : Update)
    (t : TelegramBot) (r : ρ) (id : Int) :
    GoMap.index false (handle env R u.endpoint u.ctx t r).bot.authGroup id =
      (u.isLoginOf env id || GoMap.index false t.authGroup id) := by
  by_cases he : u.endpoint = Endpoint.login
  · rw [he]
    show GoMap.index false (Login env u.ctx t r).bot.authGroup id = _
    rw [Login_authGroup_index]
    simp [Update.isLoginOf, he]
  · rw [handle_authGroup_of_ne_login env R u.endpoint he]
    simp [Update.isLoginOf, he]

/-- The entry of `id` in `authGroup` after a sequence of events, from any state. -/
theorem runUpdates_authGroup_index {ρ : Type} (env : Env) (R : Router ρ) (us : List Update)
    (id : Int) (t0 : TelegramBot) (r0 : ρ) (t : TelegramBot) (r : ρ)
    (hrun : runUpdates env R t0 r0 us = some (t, r)) :
    GoMap.index false t.authGroup id =
      (us.any (Update.isLoginOf env id) || GoMap.index false t0.authGroup id) := by
  induction us generalizing t0 r0 with
  | nil =>
    simp only [runUpdates, Option.some.injEq, Prod.mk.injEq] at hrun
    simp [hrun.1]
  | cons u us ih =>
    have hstep := handle_authGroup_index env R u t0 r0 id
    unfold runUpdates at hrun
    rcases hout : handle env R u.endpoint u.ctx t0 r0 with ⟨t1, r1, es, ex⟩
    rw [hout] at hrun hstep
    cases ex with
    | returned =>
      simp only at hrun hstep
      rw [ih t1 r1 hrun, hstep, List.any_cons]
      cases List.any us (Update.isLoginOf env id) <;> simp
    | panicked => simp at hrun

theorem foldl_remember_nameCache_of_not_mem (env : Env) (ds : List Device) (t : TelegramBot)
    (k : String) (hk : ∀ e ∈ ds, ToUpper env.unicodeToUpper e.MacAddress ≠ k) :
    (ds.foldl (remember env) t).nameCache k = t.nameCache k := by
  induction ds generalizing t with
  | nil => rfl
  | cons d ds ih =>
    rw [List.foldl_cons, ih _ (fun e he => hk e (List.mem_cons_of_mem d he))]
    have hd : k ≠ ToUpper env.unicodeToUpper d.MacAddress :=
      fun h => hk d (List.mem_cons_self d ds) h.symm
    simp [remember, GoMap.store, hd]

/-- After the loop of `BlacklistMac`, the entry of an uppercased MAC is the name of the
last listed device with that uppercased MAC. -/
theorem foldl_remember_nameCache_last (env : Env) (pre : List Device) (d : Device)
    (post : List Device) (t : TelegramBot)
    (hpost : ∀ e ∈ post, ToUpper env.unicodeToUpper e.MacAddress ≠
      ToUpper env.unicodeToUpper d.MacAddress) :
    ((pre ++ d :: post).foldl (remember env) t).nameCache
      (ToUpper env.unicodeToUpper d.MacAddress) = some d.Name := by
  rw [List.foldl_append, List.foldl_cons, foldl_remember_nameCache_of_not_mem env post _ _ hpost]
  simp [remember, GoMap.store]

theorem BlacklistMac_bot_of_ok {ρ : Type} (env : Env) (R : Router ρ) (c : Context)
    (t : TelegramBot) (r : ρ) (ds : List Device) (r1 : ρ)
    (hlist : R.ListDevices r = ((ds, none), r1)) :
    (BlacklistMac env R c t r).bot = ds.foldl (remember env) t ∧
      (BlacklistMac env R c t r).router = r1 := by
  unfold BlacklistMac
  rw [hlist]
  exact ⟨rfl, rfl⟩

theorem LockMiddleware_exit {ρ : Type} (next : HandlerFunc ρ) (c : Context)
    (t : TelegramBot) (r : ρ) :
    (LockMiddleware next c t r).exit =
      if GoMap.index false t.authGroup c.Sender = true then (next c t r).exit
      else Exit.returned := by
  unfold LockMiddleware
  by_cases hc : c.Callback = true <;>
    by_cases ha : GoMap.index false t.authGroup c.Sender = true <;>
    simp [hc, ha, Send]

theorem OnCallback_exit {ρ : Type} (R : Router ρ) (c : Context) (t : TelegramBot) (r : ρ)
    (hargs : 2 ≤ c.Args.length) : (OnCallback R c t r).exit = Exit.returned := by
  rcases hc : c.Args with _ | ⟨a0, _ | ⟨a1, rest⟩⟩
  · rw [hc] at hargs; simp at hargs
  · rw [hc] at hargs; simp at hargs
  · unfold OnCallback
    simp only [hc, List.getElem?_cons_zero, List.getElem?_cons_succ]
    split_ifs <;> (repeat' split) <;> rfl

/-- Every handler returns, except possibly a callback that lacks one of its two fields. -/
theorem handle_exit {ρ : Type} (env : Env) (R : Router ρ) (e : Endpoint) (c : Context)
    (hargs : e = Endpoint.onCallback → 2 ≤ c.Args.length) (t : TelegramBot) (r : ρ) :
    (handle env R e c t r).exit = Exit.returned := by
  cases e with
  | start => rfl
  | login =>
    show (Login env c t r).exit = _
    unfold Login
    split
    · rfl
    · split <;> rfl
  | btnReauthenticateRouter =>
    show (LockMiddleware _ c t r).exit = _
    rw [LockMiddleware_exit]
    split
    · unfold ReauthenticateRouter
      split <;> rfl
    · rfl
  | btnWhitelistMac =>
    show (LockMiddleware _ c t r).exit = _
    rw [LockMiddleware_exit]
    split
    · unfold WhitelistMac
      split
      · rfl
      · split <;> rfl
    · rfl
  | btnBlacklistMac =>
    show (LockMiddleware _ c t r).exit = _
    rw [LockMiddleware_exit]
    split
    · unfold BlacklistMac
      split <;> rfl
    · rfl
  | btnClearBlacklist =>
    show (LockMiddleware _ c t r).exit = _
    rw [LockMiddleware_exit]
    split
    · unfold ClearBlacklist
      split <;> rfl
    · rfl
  | onCallback =>
    show (LockMiddleware _ c t r).exit = _
    rw [LockMiddleware_exit]
    split
    · exact OnCallback_exit R c t r (hargs rfl)
    · rfl

/-- The process survives every sequence of events in which each callback carries its
two fields. -/
theorem runUpdates_isSome {ρ : Type} (env : Env) (R : Router ρ) (us : List Update)
    (hargs : ∀ u ∈ us, u.endpoint = Endpoint.onCallback → 2 ≤ u.ctx.Args.length)
    (t0 : TelegramBot) (r0 : ρ) : (runUpdates env R t0 r0 us).isSome = true := by
  induction us generalizing t0 r0 with
  | nil => rfl
  | cons u us ih =>
    have hex := handle_exit env R u.endpoint u.ctx (hargs u (List.mem_cons_self u us)) t0 r0
    unfold runUpdates
    rcases hout : handle env R u.endpoint u.ctx t0 r0 with ⟨t1, r1, es, ex⟩
    rw [hout] at hex
    simp only at hex
    subst hex
    exact ih (fun v hv => hargs v (List.mem_cons_of_mem u hv)) t1 r1

/-! ## The credential gate -/

/-- C1: in the state reached from `NewTelegramBot` by any sequence of events that the
process has handled, with any Router, `authGroup[id]` is true exactly when the sequence
holds a `/login` sent by `id` whose first argument is the configured password. So it is
false at every point before the first such login and true at every point after it,
whatever follows. -/
theorem authGroup_true_iff_logged_in {ρ : Type} (env : Env) (R : Router ρ) (r0 : ρ)
    (us : List Update) (id : Int) (t : TelegramBot) (r : ρ)
    (hrun : runUpdates env R NewTelegramBot r0 us = some (t, r)) :
    GoMap.index false t.authGroup id = true ↔
      ∃ u ∈ us, u.endpoint = Endpoint.login ∧ u.ctx.Sender = id ∧
        u.ctx.Args.head? = some env.password := by
  rw [runUpdates_authGroup_index env R us id NewTelegramBot r0 t r hrun]
  simp [NewTelegramBot, GoMap.index, GoMap.empty, Update.isLoginOf, and_assoc]

/-- C1 at work: a wrong password, the right one, a wrong one again and a callback. -/
theorem authGroup_true_iff_logged_in_witness :
    ∃ t r, runUpdates testEnv (okRouter []) NewTelegramBot ()
        [⟨Endpoint.login, ⟨1, ["wrong"], false⟩⟩, ⟨Endpoint.login, ⟨1, ["secret"], false⟩⟩,
          ⟨Endpoint.login, ⟨1, ["wrong"], false⟩⟩,
          ⟨Endpoint.onCallback, ⟨2, ["/block", "aa"], true⟩⟩] = some (t, r) ∧
      (GoMap.index false t.authGroup 1 = true ↔
        ∃ u ∈ [(⟨Endpoint.login, ⟨1, ["wrong"], false⟩⟩ : Update),
            ⟨Endpoint.login, ⟨1, ["secret"], false⟩⟩, ⟨Endpoint.login, ⟨1, ["wrong"], false⟩⟩,
            ⟨Endpoint.onCallback, ⟨2, ["/block", "aa"], true⟩⟩],
          u.endpoint = Endpoint.login ∧ u.ctx.Sender = 1 ∧
            u.ctx.Args.head? = some testEnv.password) :=
  ⟨_, _, rfl, authGroup_true_iff_logged_in testEnv (okRouter []) () _ 1 _ _ rfl⟩

/-- C2: a guarded event (one of the four buttons or a callback, with any arguments) from
a sender whose `authGroup` entry is false gets the not-authenticated reply as its only
reply, calls no Router operation, and leaves the bot state (`authGroup`, `nameCache`) and
the router state as they were. -/
theorem guarded_unauthenticated {ρ : Type} (env : Env) (R : Router ρ) (e : Endpoint)
    (c : Context) (t : TelegramBot) (r : ρ) (hguard : e.guarded = true)
    (hauth : GoMap.index false t.authGroup c.Sender = false) :
    sends (handle env R e c t r).effects =
        [("You are not authenticated.\nPlease use\n\n/login PASSWORD\n\nto authenticate",
          none)] ∧
      routerCalls (handle env R e c t r).effects = [] ∧
      (handle env R e c t r).router = r ∧
      (handle env R e c t r).bot = t ∧
      (handle env R e c t r).exit = Exit.returned := by
  have key : ∀ next : HandlerFunc ρ,
      sends (LockMiddleware next c t r).effects =
        [("You are not authenticated.\nPlease use\n\n/login PASSWORD\n\nto authenticate",
          none)] ∧
      routerCalls (LockMiddleware next c t r).effects = [] ∧
      (LockMiddleware next c t r).router = r ∧
      (LockMiddleware next c t r).bot = t ∧
      (LockMiddleware next c t r).exit = Exit.returned := by
    intro next
    unfold LockMiddleware
    by_cases hc : c.Callback = true <;> simp [hc, hauth, Send, sends, routerCalls]
  cases e with
  | start => simp [Endpoint.guarded] at hguard
  | login => simp [Endpoint.guarded] at hguard
  | btnReauthenticateRouter => exact key _
  | btnWhitelistMac => exact key _
  | btnBlacklistMac => exact key _
  | btnClearBlacklist => exact key _
  | onCallback => exact key _

/-- C2 at work: a fresh bot, sender 7 presses the Reauth Router button. -/
theorem guarded_unauthenticated_witness :
    (Endpoint.btnReauthenticateRouter.guarded = true ∧
      GoMap.index false NewTelegramBot.authGroup 7 = false) ∧
    sends (handle testEnv failRouter Endpoint.btnReauthenticateRouter ⟨7, [], false⟩
        NewTelegramBot ()).effects =
      [("You are not authenticated.\nPlease use\n\n/login PASSWORD\n\nto authenticate",
        none)] ∧
    routerCalls (handle testEnv failRouter Endpoint.btnReauthenticateRouter ⟨7, [], false⟩
        NewTelegramBot ()).effects = [] :=
  ⟨⟨rfl, rfl⟩,
    (guarded_unauthenticated testEnv failRouter Endpoint.btnReauthenticateRouter
      ⟨7, [], false⟩ NewTelegramBot () rfl rfl).1,
    (guarded_unauthenticated testEnv failRouter Endpoint.btnReauthenticateRouter
      ⟨7, [], false⟩ NewTelegramBot () rfl rfl).2.1⟩

/-! ## The name cache -/

/-- C3, refuted as stated: a blacklist flow observes `("11:22:33:44:55:66", "phone")` and
the cache holds `"phone"`; a second blacklist flow observes `("11:22:33:44:55:66", "")`
and the cache entry is no longer `"phone"`. -/
theorem empty_name_keeps_cached_name_counterexample :
    GoMap.index ""
        (BlacklistMac testEnv scriptRouter ⟨1, [], false⟩ NewTelegramBot
          [[⟨"11:22:33:44:55:66", "phone"⟩], [⟨"11:22:33:44:55:66", ""⟩]]).bot.nameCache
        (ToUpper testEnv.unicodeToUpper "11:22:33:44:55:66") = "phone" ∧
      GoMap.index ""
        (BlacklistMac testEnv scriptRouter ⟨1, [], false⟩
          (BlacklistMac testEnv scriptRouter ⟨1, [], false⟩ NewTelegramBot
            [[⟨"11:22:33:44:55:66", "phone"⟩], [⟨"11:22:33:44:55:66", ""⟩]]).bot
          (BlacklistMac testEnv scriptRouter ⟨1, [], false⟩ NewTelegramBot
            [[⟨"11:22:33:44:55:66", "phone"⟩], [⟨"11:22:33:44:55:66", ""⟩]]).router).bot.nameCache
        (ToUpper testEnv.unicodeToUpper "11:22:33:44:55:66") ≠ "phone" := by
  decide

/-- C3, amended: the cache keeps the last observed name, empty or not. When a blacklist
flow lists a device `(m, X)`, as the last device of that uppercased MAC, the entry of the
uppercased `m` is `X` afterwards; when a later blacklist flow lists `(m, "")` in the same
way, the entry is `""` afterwards. -/
theorem BlacklistMac_last_name_wins {ρ : Type} (env : Env) (R : Router ρ) (c1 c2 : Context)
    (t : TelegramBot) (r r1 r2 : ρ) (m X : String) (pre1 post1 pre2 post2 : List Device)
    (hlist1 : R.ListDevices r = ((pre1 ++ ⟨m, X⟩ :: post1, none), r1))
    (hpost1 : ∀ e ∈ post1, ToUpper env.unicodeToUpper e.MacAddress ≠
      ToUpper env.unicodeToUpper m)
    (hlist2 : R.ListDevices r1 = ((pre2 ++ ⟨m, ""⟩ :: post2, none), r2))
    (hpost2 : ∀ e ∈ post2, ToUpper env.unicodeToUpper e.MacAddress ≠
      ToUpper env.unicodeToUpper m) :
    GoMap.index "" (BlacklistMac env R c1 t r).bot.nameCache (ToUpper env.unicodeToUpper m)
        = X ∧
      GoMap.index ""
        (BlacklistMac env R c2 (BlacklistMac env R c1 t r).bot
          (BlacklistMac env R c1 t r).router).bot.nameCache
        (ToUpper env.unicodeToUpper m) = "" := by
  obtain ⟨hb1, hr1⟩ := BlacklistMac_bot_of_ok env R c1 t r _ r1 hlist1
  rw [hr1]
  obtain ⟨hb2, -⟩ := BlacklistMac_bot_of_ok env R c2 (BlacklistMac env R c1 t r).bot r1 _ r2 hlist2
  rw [hb2, hb1]
  constructor
  · have h := foldl_remember_nameCache_last env pre1 ⟨m, X⟩ post1 t hpost1
    unfold GoMap.index
    rw [h]
    rfl
  · have h := foldl_remember_nameCache_last env pre2 ⟨m, ""⟩ post2
      ((pre1 ++ ⟨m, X⟩ :: post1).foldl (remember env) t) hpost2
    unfold GoMap.index
    rw [h]
    rfl

/-- C3 amended, at work: `"phone"` is cached for a MAC, then an empty name is observed. -/
theorem BlacklistMac_last_name_wins_witness :
    GoMap.index ""
        (BlacklistMac testEnv scriptRouter ⟨1, [], false⟩ NewTelegramBot
          [[⟨"11:22:33:44:55:66", "phone"⟩], [⟨"11:22:33:44:55:66", ""⟩]]).bot.nameCache
        (ToUpper testEnv.unicodeToUpper "11:22:33:44:55:66") = "phone" ∧
      GoMap.index ""
        (BlacklistMac testEnv scriptRouter ⟨2, [], false⟩
          (BlacklistMac testEnv scriptRouter ⟨1, [], false⟩ NewTelegramBot
            [[⟨"11:22:33:44:55:66", "phone"⟩], [⟨"11:22:33:44:55:66", ""⟩]]).bot
          (BlacklistMac testEnv scriptRouter ⟨1, [], false⟩ NewTelegramBot
            [[⟨"11:22:33:44:55:66", "phone"⟩], [⟨"11:22:33:44:55:66", ""⟩]]).router).bot.nameCache
        (ToUpper testEnv.unicodeToUpper "11:22:33:44:55:66") = "" :=
  BlacklistMac_last_name_wins testEnv scriptRouter ⟨1, [], false⟩ ⟨2, [], false⟩ NewTelegramBot
    [[⟨"11:22:33:44:55:66", "phone"⟩], [⟨"11:22:33:44:55:66", ""⟩]]
    [[⟨"11:22:33:44:55:66", ""⟩]] [] "11:22:33:44:55:66" "phone" [] [] [] []
    rfl (by simp) rfl (by simp)

/-! ## Callbacks -/

/-- C4: on an argument list of at least two fields whose first field, trimmed, is neither
`/block` nor `/unblock`, `OnCallback` replies `Invalid command` and nothing else: no
Router call, router and bot state untouched. -/
theorem OnCallback_invalid_command {ρ : Type} (R : Router ρ) (c : Context) (t : TelegramBot)
    (r : ρ) (a0 a1 : String) (rest : List String) (hargs : c.Args = a0 :: a1 :: rest)
    (hblock : TrimSpace a0 ≠ "/block")
    (hunblock : TrimSpace a0 ≠ "/unblock") :
    (OnCallback R c t r).effects = [Effect.send "Invalid command" none] ∧
      routerCalls (OnCallback R c t r).effects = [] ∧
      (OnCallback R c t r).router = r ∧
      (OnCallback R c t r).bot = t ∧
      (OnCallback R c t r).exit = Exit.returned := by
  unfold OnCallback
  simp [hargs, hblock, hunblock, Send, routerCalls]

/-- C4 at work: the action `/reboot`, sent with the transport marker in front. -/
theorem OnCallback_invalid_command_witness :
    ((⟨1, ["\x0c/reboot", "11:22:33:44:55:66"], true⟩ : Context).Args =
        "\x0c/reboot" :: "11:22:33:44:55:66" :: [] ∧
      TrimSpace "\x0c/reboot" ≠ "/block" ∧ TrimSpace "\x0c/reboot" ≠ "/unblock") ∧
    (OnCallback (okRouter []) ⟨1, ["\x0c/reboot", "11:22:33:44:55:66"], true⟩
        NewTelegramBot ()).effects = [Effect.send "Invalid command" none] :=
  ⟨⟨rfl, by decide, by decide⟩,
    (OnCallback_invalid_command (okRouter []) ⟨1, ["\x0c/reboot", "11:22:33:44:55:66"], true⟩
      NewTelegramBot () "\x0c/reboot" "11:22:33:44:55:66" [] rfl (by decide) (by decide)).1⟩

/-- C5, what the code does: on the one-field list `["/block"]`, on `["/unblock"]` and on
the empty list `OnCallback` panics on an index out of range, with any Router and state;
it sends no reply and reaches no Router call. -/
theorem OnCallback_short_args_panic {ρ : Type} (R : Router ρ) (sender : Int) (cb : Bool)
    (t : TelegramBot) (r : ρ) :
    ((OnCallback R ⟨sender, ["/block"], cb⟩ t r).exit = Exit.panicked ∧
        (OnCallback R ⟨sender, ["/block"], cb⟩ t r).effects = []) ∧
      ((OnCallback R ⟨sender, ["/unblock"], cb⟩ t r).exit = Exit.panicked ∧
        (OnCallback R ⟨sender, ["/unblock"], cb⟩ t r).effects = []) ∧
      ((OnCallback R ⟨sender, [], cb⟩ t r).exit = Exit.panicked ∧
        (OnCallback R ⟨sender, [], cb⟩ t r).effects = []) := by
  have hb : TrimSpace "/block" = "/block" := by decide
  have hu : TrimSpace "/unblock" = "/unblock" := by decide
  refine ⟨⟨?_, ?_⟩, ⟨?_, ?_⟩, ⟨rfl, rfl⟩⟩ <;> simp [OnCallback, hb, hu]

/-- C6: for an authenticated sender and a callback with fields `a0, m, ...`, dispatched
through `LockMiddleware`: when `a0` trims to `/block` the only Router call is
`FilterDeviceByMac m`, made once from the current router state, and the only reply is
`Device m blocked successfully` if it returned no error and `Failed to block the device`
otherwise; when `a0` trims to `/unblock` the same holds with `UnfilterDeviceByMac m`,
`Device m unblocked successfully` and `Failed to unblock the device`. The bot state is
left as it was. -/
theorem OnCallback_block_unblock {ρ : Type} (env : Env) (R : Router ρ) (c : Context)
    (t : TelegramBot) (r : ρ) (a0 m : String) (rest : List String)
    (hargs : c.Args = a0 :: m :: rest)
    (hauth : GoMap.index false t.authGroup c.Sender = true) :
    (TrimSpace a0 = "/block" →
      routerCalls (handle env R Endpoint.onCallback c t r).effects =
          [RouterCall.FilterDeviceByMac m] ∧
        sends (handle env R Endpoint.onCallback c t r).effects =
          [(if (R.FilterDeviceByMac m r).1 = none then "Device " ++ m ++ " blocked successfully"
            else "Failed to block the device", none)] ∧
        (handle env R Endpoint.onCallback c t r).router = (R.FilterDeviceByMac m r).2 ∧
        (handle env R Endpoint.onCallback c t r).bot = t ∧
        (handle env R Endpoint.onCallback c t r).exit = Exit.returned) ∧
    (TrimSpace a0 = "/unblock" →
      routerCalls (handle env R Endpoint.onCallback c t r).effects =
          [RouterCall.UnfilterDeviceByMac m] ∧
        sends (handle env R Endpoint.onCallback c t r).effects =
          [(if (R.UnfilterDeviceByMac m r).1 = none then
              "Device " ++ m ++ " unblocked successfully"
            else "Failed to unblock the device", none)] ∧
        (handle env R Endpoint.onCallback c t r).router = (R.UnfilterDeviceByMac m r).2 ∧
        (handle env R Endpoint.onCallback c t r).bot = t ∧
        (handle env R Endpoint.onCallback c t r).exit = Exit.returned) := by
  have hne : ¬ ("/block" = "/unblock") := by decide
  constructor
  · intro hcmd
    rcases hres : R.FilterDeviceByMac m r with ⟨_ | err, r1⟩ <;>
      by_cases hc : c.Callback = true <;>
      simp [handle, LockMiddleware, OnCallback, hauth, hargs, hcmd, hne, hres, hc, sends,
        routerCalls]
  · intro hcmd
    rcases hres : R.UnfilterDeviceByMac m r with ⟨_ | err, r1⟩ <;>
      by_cases hc : c.Callback = true <;>
      simp [handle, LockMiddleware, OnCallback, hauth, hargs, hcmd, hres, hc, sends,
        routerCalls]

/-- C6 at work: sender 1, logged in, selects the block item of `11:22:33:44:55:66` on a
Router that succeeds. -/
theorem OnCallback_block_unblock_witness :
    ((⟨1, ["\x0c/block", "11:22:33:44:55:66"], true⟩ : Context).Args =
        "\x0c/block" :: "11:22:33:44:55:66" :: [] ∧
      GoMap.index false (⟨GoMap.store GoMap.empty 1 true, GoMap.empty⟩ : TelegramBot).authGroup
        (⟨1, ["\x0c/block", "11:22:33:44:55:66"], true⟩ : Context).Sender = true ∧
      TrimSpace "\x0c/block" = "/block") ∧
    routerCalls (handle testEnv (okRouter []) Endpoint.onCallback
        ⟨1, ["\x0c/block", "11:22:33:44:55:66"], true⟩
        ⟨GoMap.store GoMap.empty 1 true, GoMap.empty⟩ ()).effects =
      [RouterCall.FilterDeviceByMac "11:22:33:44:55:66"] :=
  ⟨⟨rfl, by decide, by decide⟩,
    ((OnCallback_block_unblock testEnv (okRouter []) ⟨1, ["\x0c/block", "11:22:33:44:55:66"], true⟩
      ⟨GoMap.store GoMap.empty 1 true, GoMap.empty⟩ () "\x0c/block" "11:22:33:44:55:66" [] rfl
      (by decide)).1 (by decide)).1⟩

/-! ## The device menus -/

/-- C7: when `ListDevices` succeeds with `ds`, `BlacklistMac` sends exactly one reply, the
text `Choose the device to block:` with a menu of `ds.length` rows; row `i` is the single
button of device `ds[i]`, labelled `<MacAddress> (<Name>)` and bound to `/block` and the
MAC as reported. -/
theorem BlacklistMac_menu {ρ : Type} (env : Env) (R : Router ρ) (c : Context)
    (t : TelegramBot) (r r1 : ρ) (ds : List Device)
    (hlist : R.ListDevices r = ((ds, none), r1)) :
    ∃ menu : ReplyMarkup,
      sends (BlacklistMac env R c t r).effects = [("Choose the device to block:", some menu)] ∧
      menu.InlineKeyboard.length = ds.length ∧
      menu.ReplyKeyboard = [] ∧
      ∀ (i : Nat) (d : Device), ds[i]? = some d →
        menu.InlineKeyboard[i]? =
          some [⟨"/block", d.MacAddress ++ " (" ++ d.Name ++ ")", d.MacAddress⟩] := by
  refine ⟨inlineMenu (ds.map (fun d => [deviceBtn "/block" d d.Name])), ?_, ?_, rfl, ?_⟩
  · unfold BlacklistMac
    rw [hlist]
    rfl
  · simp [inlineMenu]
  · intro i d hd
    simp [inlineMenu, List.getElem?_map, hd, deviceBtn]

/-- C7 at work: the Router lists one device, `phone`. -/
theorem BlacklistMac_menu_witness :
    (okRouter [⟨"11:22:33:44:55:66", "phone"⟩]).ListDevices () =
        (([⟨"11:22:33:44:55:66", "phone"⟩], none), ()) ∧
      ∃ menu : ReplyMarkup,
        sends (BlacklistMac testEnv (okRouter [⟨"11:22:33:44:55:66", "phone"⟩])
          ⟨1, [], false⟩ NewTelegramBot ()).effects =
            [("Choose the device to block:", some menu)] ∧
        menu.InlineKeyboard.length = [(⟨"11:22:33:44:55:66", "phone"⟩ : Device)].length ∧
        menu.ReplyKeyboard = [] ∧
        ∀ (i : Nat) (d : Device), [(⟨"11:22:33:44:55:66", "phone"⟩ : Device)][i]? = some d →
          menu.InlineKeyboard[i]? =
            some [⟨"/block", d.MacAddress ++ " (" ++ d.Name ++ ")", d.MacAddress⟩] :=
  ⟨rfl, BlacklistMac_menu testEnv (okRouter [⟨"11:22:33:44:55:66", "phone"⟩]) ⟨1, [], false⟩
    NewTelegramBot () () [⟨"11:22:33:44:55:66", "phone"⟩] rfl⟩

/-- C8: when `GetFilteredDevices` succeeds with a non-empty `ds`, `WhitelistMac` sends
exactly one reply, the text `Choose the device to unblock:` with a menu of `ds.length`
rows; row `i` is the single button of device `ds[i]`, bound to `/unblock` and the MAC as
reported and labelled `<MacAddress> (<n>)`, where `n` is the cached name of the uppercased
MAC when that is not empty and the reported name otherwise. A device reported with
an empty name whose uppercased MAC has the cached name `phone` is labelled
`<MacAddress> (phone)`. -/
theorem WhitelistMac_menu {ρ : Type} (env : Env) (R : Router ρ) (c : Context)
    (t : TelegramBot) (r r1 : ρ) (ds : List Device) (hne : ds ≠ [])
    (hlist : R.GetFilteredDevices r = ((ds, none), r1)) :
    ∃ menu : ReplyMarkup,
      sends (WhitelistMac env R c t r).effects =
        [("Choose the device to unblock:", some menu)] ∧
      menu.InlineKeyboard.length = ds.length ∧
      menu.ReplyKeyboard = [] ∧
      (∀ (i : Nat) (d : Device), ds[i]? = some d →
        menu.InlineKeyboard[i]? =
          some [⟨"/unblock",
            d.MacAddress ++ " (" ++
              (if GoMap.index "" t.nameCache (ToUpper env.unicodeToUpper d.MacAddress) ≠ "" then
                GoMap.index "" t.nameCache (ToUpper env.unicodeToUpper d.MacAddress)
              else d.Name) ++ ")",
            d.MacAddress⟩]) ∧
      (∀ (i : Nat) (mac : String), ds[i]? = some ⟨mac, ""⟩ →
        t.nameCache (ToUpper env.unicodeToUpper mac) = some "phone" →
        menu.InlineKeyboard[i]? = some [⟨"/unblock", mac ++ " (phone)", mac⟩]) := by
  have hlen : ¬ ds.length = 0 := fun h => hne (List.length_eq_zero.mp h)
  refine ⟨inlineMenu (ds.map (fun d => [deviceBtn "/unblock" d (shownName env t d)])),
    ?_, ?_, rfl, ?_, ?_⟩
  · unfold WhitelistMac
    rw [hlist]
    simp only [hlen, if_false]
    rfl
  · simp [inlineMenu]
  · intro i d hd
    simp [inlineMenu, List.getElem?_map, hd, deviceBtn, shownName]
  · intro i mac hd hcache
    have hphone : ¬ ("phone" = "") := by decide
    simp [inlineMenu, List.getElem?_map, hd, deviceBtn, shownName, GoMap.index, hcache, hphone,
      String.append_assoc]

/-- C8 at work: the cache holds `phone` for a MAC that the Router reports without a name. -/
theorem WhitelistMac_menu_witness :
    ([(⟨"11:22:33:44:55:66", ""⟩ : Device)] ≠ [] ∧
      (okRouter [⟨"11:22:33:44:55:66", ""⟩]).GetFilteredDevices () =
        (([⟨"11:22:33:44:55:66", ""⟩], none), ())) ∧
    ∃ menu : ReplyMarkup,
      sends (WhitelistMac testEnv (okRouter [⟨"11:22:33:44:55:66", ""⟩]) ⟨1, [], false⟩
          ⟨GoMap.empty, GoMap.store GoMap.empty "11:22:33:44:55:66" "phone"⟩ ()).effects =
        [("Choose the device to unblock:", some menu)] ∧
      menu.InlineKeyboard[0]? =
        some [⟨"/unblock", "11:22:33:44:55:66 (phone)", "11:22:33:44:55:66"⟩] := by
  refine ⟨⟨by simp, rfl⟩, ?_⟩
  obtain ⟨menu, hsend, -, -, -, hphone⟩ :=
    WhitelistMac_menu testEnv (okRouter [⟨"11:22:33:44:55:66", ""⟩]) ⟨1, [], false⟩
      ⟨GoMap.empty, GoMap.store GoMap.empty "11:22:33:44:55:66" "phone"⟩ () ()
      [⟨"11:22:33:44:55:66", ""⟩] (by simp) rfl
  exact ⟨menu, hsend, hphone 0 "11:22:33:44:55:66" rfl (by decide)⟩

/-- C9: when `GetFilteredDevices` succeeds with no device, `WhitelistMac` makes that one
Router call and sends the text `No devices are blocked`, without a menu, and nothing
else, whatever the name cache holds. -/
theorem WhitelistMac_empty {ρ : Type} (env : Env) (R : Router ρ) (c : Context)
    (t : TelegramBot) (r r1 : ρ) (hlist : R.GetFilteredDevices r = (([], none), r1)) :
    (WhitelistMac env R c t r).effects =
        [Effect.router RouterCall.GetFilteredDevices,
          Effect.send "No devices are blocked" none] ∧
      sends (WhitelistMac env R c t r).effects = [("No devices are blocked", none)] ∧
      (WhitelistMac env R c t r).exit = Exit.returned := by
  unfold WhitelistMac
  rw [hlist]
  exact ⟨rfl, rfl, rfl⟩

/-- C9 at work: no device is denied, the cache is not empty. -/
theorem WhitelistMac_empty_witness :
    (okRouter []).GetFilteredDevices () = (([], none), ()) ∧
      sends (WhitelistMac testEnv (okRouter []) ⟨1, [], false⟩
          ⟨GoMap.empty, GoMap.store GoMap.empty "11:22:33:44:55:66" "phone"⟩ ()).effects =
        [("No devices are blocked", none)] :=
  ⟨rfl, (WhitelistMac_empty testEnv (okRouter []) ⟨1, [], false⟩
    ⟨GoMap.empty, GoMap.store GoMap.empty "11:22:33:44:55:66" "phone"⟩ () () rfl).2.1⟩

/-- C10: for MACs `m1`, `m2` with the same uppercase form and a non-empty name `N`: after
a blacklist flow that lists the single device `(m1, N)`, the name read from the cache for
`m2` is `N`, and a whitelist flow that follows and lists the single device `(m2, "")`
sends the menu whose one item is labelled `<m2> (N)` and bound to `/unblock` and `m2`. -/
theorem nameCache_case_insensitive {ρ : Type} (env : Env) (R : Router ρ) (c1 c2 : Context)
    (t : TelegramBot) (r r1 r2 : ρ) (m1 m2 N : String)
    (hcase : ToUpper env.unicodeToUpper m1 = ToUpper env.unicodeToUpper m2) (hN : N ≠ "")
    (hlist1 : R.ListDevices r = (([⟨m1, N⟩], none), r1))
    (hlist2 : R.GetFilteredDevices r1 = (([⟨m2, ""⟩], none), r2)) :
    GoMap.index "" (BlacklistMac env R c1 t r).bot.nameCache (ToUpper env.unicodeToUpper m2)
        = N ∧
      sends (WhitelistMac env R c2 (BlacklistMac env R c1 t r).bot
          (BlacklistMac env R c1 t r).router).effects =
        [("Choose the device to unblock:",
          some ⟨false, false, [], [[⟨"/unblock", m2 ++ " (" ++ N ++ ")", m2⟩]]⟩)] := by
  obtain ⟨hb, hr⟩ := BlacklistMac_bot_of_ok env R c1 t r _ r1 hlist1
  have hcache : GoMap.index "" (BlacklistMac env R c1 t r).bot.nameCache
      (ToUpper env.unicodeToUpper m2) = N := by
    rw [hb]
    simp [remember, GoMap.index, GoMap.store, hcase]
  refine ⟨hcache, ?_⟩
  rw [hr]
  unfold WhitelistMac
  rw [hlist2]
  simp [sends, inlineMenu, deviceBtn, shownName, hcache, hN]

/-- C10 at work: `aa:bb:cc:dd:ee:ff` is remembered as `N` and looked up in capitals. -/
theorem nameCache_case_insensitive_witness :
    (ToUpper testEnv.unicodeToUpper "aa:bb:cc:dd:ee:ff" =
        ToUpper testEnv.unicodeToUpper "AA:BB:CC:DD:EE:FF" ∧ "N" ≠ "") ∧
    GoMap.index ""
        (BlacklistMac testEnv scriptRouter ⟨1, [], false⟩ NewTelegramBot
          [[⟨"aa:bb:cc:dd:ee:ff", "N"⟩], [⟨"AA:BB:CC:DD:EE:FF", ""⟩]]).bot.nameCache
        (ToUpper testEnv.unicodeToUpper "AA:BB:CC:DD:EE:FF") = "N" :=
  ⟨⟨by decide, by decide⟩,
    (nameCache_case_insensitive testEnv scriptRouter ⟨1, [], false⟩ ⟨1, [], false⟩ NewTelegramBot
      [[⟨"aa:bb:cc:dd:ee:ff", "N"⟩], [⟨"AA:BB:CC:DD:EE:FF", ""⟩]] [[⟨"AA:BB:CC:DD:EE:FF", ""⟩]] []
      "aa:bb:cc:dd:ee:ff" "AA:BB:CC:DD:EE:FF" "N" (by decide) (by decide) rfl rfl).1⟩

/-! ## Login -/

/-- C11: a `Login` by `c.Sender` with arguments `a :: rest`. When `a` is the configured
password, the entry of the sender in `authGroup` becomes true, every other entry is as
before and the only effect is the reply `Login successful`. When `a` is not the password,
the whole bot state is as before and the only effect is the reply `Wrong password`. In
both cases `nameCache` and the router state are as before and no Router call is made. -/
theorem Login_frame {ρ : Type} (env : Env) (c : Context) (t : TelegramBot) (r : ρ)
    (a : String) (rest : List String) (hargs : c.Args = a :: rest) :
    (a = env.password →
      (Login env c t r).bot.authGroup c.Sender = some true ∧
      (∀ j, j ≠ c.Sender → (Login env c t r).bot.authGroup j = t.authGroup j) ∧
      (Login env c t r).effects = [Effect.send "Login successful" none]) ∧
    (a ≠ env.password →
      (Login env c t r).bot.authGroup = t.authGroup ∧
      (Login env c t r).effects = [Effect.send "Wrong password" none]) ∧
    (Login env c t r).bot.nameCache = t.nameCache ∧
    routerCalls (Login env c t r).effects = [] ∧
    (Login env c t r).router = r ∧
    (Login env c t r).exit = Exit.returned := by
  unfold Login
  rw [hargs]
  by_cases ha : a = env.password
  · dsimp only
    rw [if_pos ha]
    refine ⟨fun _ => ⟨?_, ?_, rfl⟩, fun h => absurd ha h, rfl, rfl, rfl, rfl⟩
    · simp [Send, GoMap.store]
    · intro j hj
      simp [Send, GoMap.store, hj]
  · simp [ha, Send, routerCalls]

/-- C11 at work: sender 1 logs in with the password while sender 2 is already known. -/
theorem Login_frame_witness :
    (⟨1, ["secret", "x"], false⟩ : Context).Args = "secret" :: ["x"] ∧
      (Login testEnv ⟨1, ["secret", "x"], false⟩
        ⟨GoMap.store GoMap.empty 2 true, GoMap.empty⟩ ()).effects =
          [Effect.send "Login successful" none] ∧
      (Login testEnv ⟨1, ["Secret"], false⟩
        ⟨GoMap.store GoMap.empty 2 true, GoMap.empty⟩ ()).effects =
          [Effect.send "Wrong password" none] :=
  ⟨rfl,
    ((Login_frame testEnv ⟨1, ["secret", "x"], false⟩
      ⟨GoMap.store GoMap.empty 2 true, GoMap.empty⟩ () "secret" ["x"] rfl).1 rfl).2.2,
    ((Login_frame testEnv ⟨1, ["Secret"], false⟩
      ⟨GoMap.store GoMap.empty 2 true, GoMap.empty⟩ () "Secret" [] rfl).2.1 (by decide)).2⟩

theorem dropWhile_append_of_all {α : Type} (p : α → Bool) (l1 l2 : List α)
    (h : l1.all p = true) : (l1 ++ l2).dropWhile p = l2.dropWhile p := by
  induction l1 with
  | nil => rfl
  | cons a l ih =>
    simp only [List.all_cons, Bool.and_eq_true] at h
    simp [List.dropWhile, h.1, ih h.2]

/-- Leading white space in front of a string is trimmed away. -/
theorem TrimSpace_marker (marker s : String) (h : marker.data.all isSpace = true) :
    TrimSpace (marker ++ s) = TrimSpace s := by
  unfold TrimSpace
  rw [String.data_append, dropWhile_append_of_all isSpace _ _ h]

theorem device_reply_ne_invalid (m tail : String) :
    "Device " ++ m ++ tail ≠ "Invalid command" := by
  intro h
  have hd := congrArg String.data h
  simp only [String.data_append] at hd
  have h0 := congrArg List.head? hd
  simp at h0

/-- The effects of `OnCallback` on a block selection. -/
theorem OnCallback_block_effects {ρ : Type} (R : Router ρ) (c : Context) (t : TelegramBot)
    (r : ρ) (a0 m : String) (rest : List String) (hargs : c.Args = a0 :: m :: rest)
    (hcmd : TrimSpace a0 = "/block") :
    (OnCallback R c t r).effects =
        [Effect.router (RouterCall.FilterDeviceByMac m),
          Effect.send (if (R.FilterDeviceByMac m r).1 = none then
            "Device " ++ m ++ " blocked successfully" else "Failed to block the device") none] ∧
      (OnCallback R c t r).exit = Exit.returned := by
  have hne : ¬ ("/block" = "/unblock") := by decide
  rcases hres : R.FilterDeviceByMac m r with ⟨_ | err, r1⟩ <;>
    simp [OnCallback, hargs, hcmd, hne, hres]

/-- The effects of `OnCallback` on an unblock selection. -/
theorem OnCallback_unblock_effects {ρ : Type} (R : Router ρ) (c : Context) (t : TelegramBot)
    (r : ρ) (a0 m : String) (rest : List String) (hargs : c.Args = a0 :: m :: rest)
    (hcmd : TrimSpace a0 = "/unblock") :
    (OnCallback R c t r).effects =
        [Effect.router (RouterCall.UnfilterDeviceByMac m),
          Effect.send (if (R.UnfilterDeviceByMac m r).1 = none then
            "Device " ++ m ++ " unblocked successfully"
            else "Failed to unblock the device") none] ∧
      (OnCallback R c t r).exit = Exit.returned := by
  rcases hres : R.UnfilterDeviceByMac m r with ⟨_ | err, r1⟩ <;>
    simp [OnCallback, hargs, hcmd, hres]

/-- C13: the token bound to a device's menu item comes back to the device's MAC. Let the
Router list `ds` with `ds[i] = d`, and let `marker` be white space. After a successful
`ListDevices`, row `i` of the menu sent by `BlacklistMac` is one button `b`; whenever
`OnCallback` receives the two fields `[marker ++ b.Unique, b.Data]`, its only Router call
is `FilterDeviceByMac d.MacAddress`, it returns, and no reply is `Invalid command`. After
a successful `GetFilteredDevices` the same holds for `WhitelistMac` and
`UnfilterDeviceByMac d.MacAddress`. -/
theorem callback_token_round_trip {ρ : Type} (env : Env) (R : Router ρ) (marker : String)
    (hmarker : marker.data.all isSpace = true) (c1 : Context) (t : TelegramBot) (r r1 : ρ)
    (ds : List Device) (i : Nat) (d : Device) (hd : ds[i]? = some d) :
    (R.ListDevices r = ((ds, none), r1) →
      ∃ (menu : ReplyMarkup) (b : Btn),
        sends (BlacklistMac env R c1 t r).effects =
          [("Choose the device to block:", some menu)] ∧
        menu.InlineKeyboard[i]? = some [b] ∧
        ∀ (c : Context) (t2 : TelegramBot) (r2 : ρ), c.Args = callbackArgs marker b →
          routerCalls (OnCallback R c t2 r2).effects =
            [RouterCall.FilterDeviceByMac d.MacAddress] ∧
          (OnCallback R c t2 r2).exit = Exit.returned ∧
          ∀ x ∈ sends (OnCallback R c t2 r2).effects, x.1 ≠ "Invalid command") ∧
    (R.GetFilteredDevices r = ((ds, none), r1) →
      ∃ (menu : ReplyMarkup) (b : Btn),
        sends (WhitelistMac env R c1 t r).effects =
          [("Choose the device to unblock:", some menu)] ∧
        menu.InlineKeyboard[i]? = some [b] ∧
        ∀ (c : Context) (t2 : TelegramBot) (r2 : ρ), c.Args = callbackArgs marker b →
          routerCalls (OnCallback R c t2 r2).effects =
            [RouterCall.UnfilterDeviceByMac d.MacAddress] ∧
          (OnCallback R c t2 r2).exit = Exit.returned ∧
          ∀ x ∈ sends (OnCallback R c t2 r2).effects, x.1 ≠ "Invalid command") := by
  have hblock : TrimSpace (marker ++ "/block") = "/block" := by
    rw [TrimSpace_marker marker "/block" hmarker]
    decide
  have hunblock : TrimSpace (marker ++ "/unblock") = "/unblock" := by
    rw [TrimSpace_marker marker "/unblock" hmarker]
    decide
  have hfail1 : ¬ ("Failed to block the device" = "Invalid command") := by decide
  have hfail2 : ¬ ("Failed to unblock the device" = "Invalid command") := by decide
  constructor
  · intro hlist
    refine ⟨inlineMenu (ds.map (fun d => [deviceBtn "/block" d d.Name])),
      deviceBtn "/block" d d.Name, ?_, ?_, ?_⟩
    · unfold BlacklistMac
      rw [hlist]
      rfl
    · simp [inlineMenu, List.getElem?_map, hd]
    · intro c t2 r2 hargs
      obtain ⟨heff, hexit⟩ := OnCallback_block_effects R c t2 r2 (marker ++ "/block")
        d.MacAddress [] hargs hblock
      rw [heff]
      refine ⟨rfl, hexit, ?_⟩
      intro x hx
      simp only [sends, List.mem_singleton] at hx
      rw [hx]
      dsimp only
      split
      · exact device_reply_ne_invalid _ _
      · exact hfail1
  · intro hlist
    have hlen : ¬ ds.length = 0 := by
      intro h
      rw [List.length_eq_zero.mp h] at hd
      simp at hd
    refine ⟨inlineMenu (ds.map (fun d => [deviceBtn "/unblock" d (shownName env t d)])),
      deviceBtn "/unblock" d (shownName env t d), ?_, ?_, ?_⟩
    · unfold WhitelistMac
      rw [hlist]
      simp only [hlen, if_false]
      rfl
    · simp [inlineMenu, List.getElem?_map, hd]
    · intro c t2 r2 hargs
      obtain ⟨heff, hexit⟩ := OnCallback_unblock_effects R c t2 r2 (marker ++ "/unblock")
        d.MacAddress [] hargs hunblock
      rw [heff]
      refine ⟨rfl, hexit, ?_⟩
      intro x hx
      simp only [sends, List.mem_singleton] at hx
      rw [hx]
      dsimp only
      split
      · exact device_reply_ne_invalid _ _
      · exact hfail2

/-- C13 at work: the item rendered for `11:22:33:44:55:66` comes back behind a form feed
and blocks that MAC. -/
theorem callback_token_round_trip_witness :
    (("\x0c" : String).data.all isSpace = true ∧
      [(⟨"11:22:33:44:55:66", "phone"⟩ : Device)][0]? = some ⟨"11:22:33:44:55:66", "phone"⟩ ∧
      (okRouter [⟨"11:22:33:44:55:66", "phone"⟩]).ListDevices () =
        (([⟨"11:22:33:44:55:66", "phone"⟩], none), ())) ∧
    ∃ (menu : ReplyMarkup) (b : Btn),
      sends (BlacklistMac testEnv (okRouter [⟨"11:22:33:44:55:66", "phone"⟩])
        ⟨1, [], false⟩ NewTelegramBot ()).effects =
          [("Choose the device to block:", some menu)] ∧
      menu.InlineKeyboard[0]? = some [b] ∧
      routerCalls (OnCallback (okRouter [⟨"11:22:33:44:55:66", "phone"⟩])
        ⟨1, callbackArgs "\x0c" b, true⟩ NewTelegramBot ()).effects =
          [RouterCall.FilterDeviceByMac "11:22:33:44:55:66"] := by
  refine ⟨⟨by decide, rfl, rfl⟩, ?_⟩
  obtain ⟨menu, b, hsend, hrow, hback⟩ :=
    (callback_token_round_trip testEnv (okRouter [⟨"11:22:33:44:55:66", "phone"⟩]) "\x0c"
      (by decide) ⟨1, [], false⟩ NewTelegramBot () ()
      [⟨"11:22:33:44:55:66", "phone"⟩] 0 ⟨"11:22:33:44:55:66", "phone"⟩ rfl).1 rfl
  exact ⟨menu, b, hsend, hrow, (hback ⟨1, callbackArgs "\x0c" b, true⟩ NewTelegramBot () rfl).1⟩

/-! ## Replies and acknowledgements -/

theorem sends_append (xs ys : List Effect) : sends (xs ++ ys) = sends xs ++ sends ys := by
  induction xs with
  | nil => rfl
  | cons x xs ih => cases x <;> simp [sends, ih]

theorem responds_append (xs ys : List Effect) :
    responds (xs ++ ys) = responds xs + responds ys := by
  induction xs with
  | nil => simp [responds]
  | cons x xs ih =>
    cases x with
    | send what markup => simp [responds, ih]
    | respond =>
      show responds (xs ++ ys) + 1 = responds xs + 1 + responds ys
      rw [ih]
      omega
    | router call => simp [responds, ih]

theorem LockMiddleware_sends {ρ : Type} (next : HandlerFunc ρ) (c : Context)
    (t : TelegramBot) (r : ρ) :
    sends (LockMiddleware next c t r).effects =
      if GoMap.index false t.authGroup c.Sender = true then sends (next c t r).effects
      else [("You are not authenticated.\nPlease use\n\n/login PASSWORD\n\nto authenticate",
        none)] := by
  unfold LockMiddleware
  by_cases hc : c.Callback = true <;>
    by_cases ha : GoMap.index false t.authGroup c.Sender = true <;>
    simp [hc, ha, Send, sends, sends_append]

theorem LockMiddleware_responds {ρ : Type} (next : HandlerFunc ρ)
    (hnext : ∀ c t r, responds (next c t r).effects = 0) (c : Context)
    (t : TelegramBot) (r : ρ) :
    responds (LockMiddleware next c t r).effects = if c.Callback = true then 1 else 0 := by
  unfold LockMiddleware
  by_cases hc : c.Callback = true <;>
    by_cases ha : GoMap.index false t.authGroup c.Sender = true <;>
    simp [hc, ha, Send, responds, responds_append, hnext]

theorem ReauthenticateRouter_effects {ρ : Type} (R : Router ρ) (c : Context)
    (t : TelegramBot) (r : ρ) :
    (ReauthenticateRouter R c t r).effects =
      [Effect.router RouterCall.RefreshToken,
        Effect.send (if (R.RefreshToken r).1 = none then "Router reauthenticated successfully"
          else "Failed to reauthenticate the router") none] := by
  unfold ReauthenticateRouter
  rcases hres : R.RefreshToken r with ⟨_ | err, r1⟩ <;> simp

theorem ClearBlacklist_effects {ρ : Type} (R : Router ρ) (c : Context)
    (t : TelegramBot) (r : ρ) :
    (ClearBlacklist R c t r).effects =
      [Effect.router RouterCall.ClearMacFilters,
        Effect.send (if (R.ClearMacFilters r).1 = none then "All devices are allowed now"
          else "Failed to clear MAC filters") none] := by
  unfold ClearBlacklist
  rcases hres : R.ClearMacFilters r with ⟨_ | err, r1⟩ <;> simp

/-- The shape of the effects of `BlacklistMac`: the Router call, then one reply. -/
theorem BlacklistMac_effects {ρ : Type} (env : Env) (R : Router ρ) (c : Context)
    (t : TelegramBot) (r : ρ) :
    ∃ what markup, (BlacklistMac env R c t r).effects =
      [Effect.router RouterCall.ListDevices, Effect.send what markup] := by
  unfold BlacklistMac
  split
  · exact ⟨_, _, rfl⟩
  · exact ⟨_, _, rfl⟩

/-- The shape of the effects of `WhitelistMac`: the Router call, then one reply. -/
theorem WhitelistMac_effects {ρ : Type} (env : Env) (R : Router ρ) (c : Context)
    (t : TelegramBot) (r : ρ) :
    ∃ what markup, (WhitelistMac env R c t r).effects =
      [Effect.router RouterCall.GetFilteredDevices, Effect.send what markup] := by
  unfold WhitelistMac
  split
  · exact ⟨_, _, rfl⟩
  · split
    · exact ⟨_, _, rfl⟩
    · exact ⟨_, _, rfl⟩

/-- The effects of `OnCallback` hold no acknowledgement and at most one reply. -/
theorem OnCallback_responds {ρ : Type} (R : Router ρ) (c : Context) (t : TelegramBot)
    (r : ρ) : responds (OnCallback R c t r).effects = 0 := by
  unfold OnCallback
  split
  · rfl
  · dsimp only
    split_ifs <;> (repeat' split) <;> rfl

/-- The effects of `OnCallback` on two fields or more hold exactly one reply. -/
theorem OnCallback_sends_length {ρ : Type} (R : Router ρ) (c : Context) (t : TelegramBot)
    (r : ρ) (hargs : 2 ≤ c.Args.length) : (sends (OnCallback R c t r).effects).length = 1 := by
  rcases hc : c.Args with _ | ⟨a0, _ | ⟨a1, rest⟩⟩
  · rw [hc] at hargs; simp at hargs
  · rw [hc] at hargs; simp at hargs
  · unfold OnCallback
    simp only [hc, List.getElem?_cons_zero, List.getElem?_cons_succ]
    split_ifs <;> (repeat' split) <;> rfl

/-- Every event, except possibly a callback that lacks one of its two fields, gets exactly
one reply. -/
theorem handle_sends_length {ρ : Type} (env : Env) (R : Router ρ) (e : Endpoint) (c : Context)
    (hargs : e = Endpoint.onCallback → 2 ≤ c.Args.length) (t : TelegramBot) (r : ρ) :
    (sends (handle env R e c t r).effects).length = 1 := by
  cases e with
  | start => rfl
  | login =>
    show (sends (Login env c t r).effects).length = 1
    unfold Login
    split
    · rfl
    · split <;> rfl
  | btnReauthenticateRouter =>
    show (sends (LockMiddleware _ c t r).effects).length = 1
    rw [LockMiddleware_sends, ReauthenticateRouter_effects]
    split <;> rfl
  | btnWhitelistMac =>
    show (sends (LockMiddleware _ c t r).effects).length = 1
    rw [LockMiddleware_sends]
    obtain ⟨what, markup, h⟩ := WhitelistMac_effects env R c t r
    rw [h]
    split <;> rfl
  | btnBlacklistMac =>
    show (sends (LockMiddleware _ c t r).effects).length = 1
    rw [LockMiddleware_sends]
    obtain ⟨what, markup, h⟩ := BlacklistMac_effects env R c t r
    rw [h]
    split <;> rfl
  | btnClearBlacklist =>
    show (sends (LockMiddleware _ c t r).effects).length = 1
    rw [LockMiddleware_sends, ClearBlacklist_effects]
    split <;> rfl
  | onCallback =>
    show (sends (LockMiddleware _ c t r).effects).length = 1
    rw [LockMiddleware_sends]
    split
    · exact OnCallback_sends_length R c t r (hargs rfl)
    · rfl

/-- C14, what the code does: an authenticated sender selects an item whose callback holds
the action only (`["/block"]`, `["/unblock"]`) or nothing; with any Router and any state
the dispatch sends no reply at all and ends in a panic, after the deferred
acknowledgement. -/
theorem callback_without_mac_sends_nothing {ρ : Type} (env : Env) (R : Router ρ)
    (sender : Int) (authGroup : GoMap Int Bool) (nameCache : GoMap String String) (r : ρ) :
    (sends (handle env R Endpoint.onCallback ⟨sender, ["/block"], true⟩
          ⟨authGroup.store sender true, nameCache⟩ r).effects = [] ∧
      (handle env R Endpoint.onCallback ⟨sender, ["/block"], true⟩
          ⟨authGroup.store sender true, nameCache⟩ r).effects = [Effect.respond] ∧
      (handle env R Endpoint.onCallback ⟨sender, ["/block"], true⟩
          ⟨authGroup.store sender true, nameCache⟩ r).exit = Exit.panicked) ∧
    (sends (handle env R Endpoint.onCallback ⟨sender, ["/unblock"], true⟩
          ⟨authGroup.store sender true, nameCache⟩ r).effects = [] ∧
      (handle env R Endpoint.onCallback ⟨sender, ["/unblock"], true⟩
          ⟨authGroup.store sender true, nameCache⟩ r).exit = Exit.panicked) ∧
    (sends (handle env R Endpoint.onCallback ⟨sender, [], true⟩
          ⟨authGroup.store sender true, nameCache⟩ r).effects = [] ∧
      (handle env R Endpoint.onCallback ⟨sender, [], true⟩
          ⟨authGroup.store sender true, nameCache⟩ r).exit = Exit.panicked) := by
  have hb : TrimSpace "/block" = "/block" := by decide
  have hu : TrimSpace "/unblock" = "/unblock" := by decide
  have hauth : GoMap.index false (authGroup.store sender true) sender = true := by
    simp [GoMap.index, GoMap.store]
  refine ⟨⟨?_, ?_, ?_⟩, ⟨?_, ?_⟩, ⟨?_, ?_⟩⟩ <;>
    simp [handle, LockMiddleware, OnCallback, hauth, hb, hu, sends]

/-- C15: a failing Router operation is answered with a fixed text that does not depend
on the error. For each handler, whatever error `err` the operation returns, the effects
are exactly the one Router call followed by the one failure reply, without menu:
`Failed to reauthenticate the router`, `Failed to list devices`, `Failed to show
blacklist`, `Failed to clear MAC filters`, `Failed to block the device`, `Failed to
unblock the device`. -/
theorem router_failure_fixed_reply {ρ : Type} (env : Env) (R : Router ρ) (c : Context)
    (t : TelegramBot) (r : ρ) :
    (∀ err r1, R.RefreshToken r = (some err, r1) →
      (ReauthenticateRouter R c t r).effects =
        [Effect.router RouterCall.RefreshToken,
          Effect.send "Failed to reauthenticate the router" none]) ∧
    (∀ ds err r1, R.ListDevices r = ((ds, some err), r1) →
      (BlacklistMac env R c t r).effects =
        [Effect.router RouterCall.ListDevices, Effect.send "Failed to list devices" none]) ∧
    (∀ ds err r1, R.GetFilteredDevices r = ((ds, some err), r1) →
      (WhitelistMac env R c t r).effects =
        [Effect.router RouterCall.GetFilteredDevices,
          Effect.send "Failed to show blacklist" none]) ∧
    (∀ err r1, R.ClearMacFilters r = (some err, r1) →
      (ClearBlacklist R c t r).effects =
        [Effect.router RouterCall.ClearMacFilters,
          Effect.send "Failed to clear MAC filters" none]) ∧
    (∀ a0 m rest err r1, c.Args = a0 :: m :: rest → TrimSpace a0 = "/block" →
      R.FilterDeviceByMac m r = (some err, r1) →
      (OnCallback R c t r).effects =
        [Effect.router (RouterCall.FilterDeviceByMac m),
          Effect.send "Failed to block the device" none]) ∧
    (∀ a0 m rest err r1, c.Args = a0 :: m :: rest → TrimSpace a0 = "/unblock" →
      R.UnfilterDeviceByMac m r = (some err, r1) →
      (OnCallback R c t r).effects =
        [Effect.router (RouterCall.UnfilterDeviceByMac m),
          Effect.send "Failed to unblock the device" none]) := by
  refine ⟨?_, ?_, ?_, ?_, ?_, ?_⟩
  · intro err r1 h
    rw [ReauthenticateRouter_effects, h]
    rfl
  · intro ds err r1 h
    unfold BlacklistMac
    rw [h]
  · intro ds err r1 h
    unfold WhitelistMac
    rw [h]
  · intro err r1 h
    rw [ClearBlacklist_effects, h]
    rfl
  · intro a0 m rest err r1 hargs hcmd h
    rw [(OnCallback_block_effects R c t r a0 m rest hargs hcmd).1, h]
    rfl
  · intro a0 m rest err r1 hargs hcmd h
    rw [(OnCallback_unblock_effects R c t r a0 m rest hargs hcmd).1, h]
    rfl

/-- C15 at work: every operation of the Router fails. -/
theorem router_failure_fixed_reply_witness :
    (failRouter.RefreshToken () = (some "boom", ()) ∧
      (ReauthenticateRouter failRouter ⟨1, [], false⟩ NewTelegramBot ()).effects =
        [Effect.router RouterCall.RefreshToken,
          Effect.send "Failed to reauthenticate the router" none]) ∧
    (((⟨1, ["/block", "11:22:33:44:55:66"], true⟩ : Context).Args =
        "/block" :: "11:22:33:44:55:66" :: [] ∧ TrimSpace "/block" = "/block" ∧
        failRouter.FilterDeviceByMac "11:22:33:44:55:66" () = (some "boom", ())) ∧
      (OnCallback failRouter ⟨1, ["/block", "11:22:33:44:55:66"], true⟩
          NewTelegramBot ()).effects =
        [Effect.router (RouterCall.FilterDeviceByMac "11:22:33:44:55:66"),
          Effect.send "Failed to block the device" none]) :=
  ⟨⟨rfl, (router_failure_fixed_reply testEnv failRouter ⟨1, [], false⟩ NewTelegramBot ()).1
      "boom" () rfl⟩,
    ⟨⟨rfl, by decide, rfl⟩,
      (router_failure_fixed_reply testEnv failRouter
        ⟨1, ["/block", "11:22:33:44:55:66"], true⟩ NewTelegramBot ()).2.2.2.2.1
        "/block" "11:22:33:44:55:66" [] "boom" () rfl (by decide) rfl⟩⟩

/-- C16: the number of acknowledgements (`c.Respond`) made by the dispatch of an event is
one when the event is a callback on an endpoint registered with `LockMiddleware`, and zero
otherwise; this holds for every sender, authenticated or not, all arguments, every Router
and also when the wrapped handler panics. -/
theorem responds_once_per_callback {ρ : Type} (env : Env) (R : Router ρ) (e : Endpoint)
    (c : Context) (t : TelegramBot) (r : ρ) :
    responds (handle env R e c t r).effects =
      if e.guarded = true ∧ c.Callback = true then 1 else 0 := by
  cases e with
  | start => simp [handle, Send, responds, Endpoint.guarded]
  | login =>
    show responds (Login env c t r).effects = _
    unfold Login
    split
    · simp [Send, responds, Endpoint.guarded]
    · split <;> simp [Send, responds, Endpoint.guarded]
  | btnReauthenticateRouter =>
    show responds (LockMiddleware _ c t r).effects = _
    rw [LockMiddleware_responds _ (fun c t r => by rw [ReauthenticateRouter_effects]; rfl)]
    simp [Endpoint.guarded]
  | btnWhitelistMac =>
    show responds (LockMiddleware _ c t r).effects = _
    rw [LockMiddleware_responds _ (fun c t r => by
      obtain ⟨what, markup, h⟩ := WhitelistMac_effects env R c t r
      rw [h]; rfl)]
    simp [Endpoint.guarded]
  | btnBlacklistMac =>
    show responds (LockMiddleware _ c t r).effects = _
    rw [LockMiddleware_responds _ (fun c t r => by
      obtain ⟨what, markup, h⟩ := BlacklistMac_effects env R c t r
      rw [h]; rfl)]
    simp [Endpoint.guarded]
  | btnClearBlacklist =>
    show responds (LockMiddleware _ c t r).effects = _
    rw [LockMiddleware_responds _ (fun c t r => by rw [ClearBlacklist_effects]; rfl)]
    simp [Endpoint.guarded]
  | onCallback =>
    show responds (LockMiddleware _ c t r).effects = _
    rw [LockMiddleware_responds _ (fun c t r => OnCallback_responds R c t r)]
    simp [Endpoint.guarded]

/-! ## The frame of the core state -/

theorem LockMiddleware_bot {ρ : Type} (next : HandlerFunc ρ) (c : Context)
    (t : TelegramBot) (r : ρ) :
    (LockMiddleware next c t r).bot =
      if GoMap.index false t.authGroup c.Sender = true then (next c t r).bot else t := by
  unfold LockMiddleware
  by_cases hc : c.Callback = true <;>
    by_cases ha : GoMap.index false t.authGroup c.Sender = true <;>
    simp [hc, ha, Send]

theorem Login_nameCache {ρ : Type} (env : Env) (c : Context) (t : TelegramBot) (r : ρ) :
    (Login env c t r).bot.nameCache = t.nameCache := by
  unfold Login
  split
  · rfl
  · split <;> rfl

/-- Every handler but `BlacklistMac` leaves `nameCache` as it is. -/
theorem handle_nameCache_of_ne_blacklist {ρ : Type} (env : Env) (R : Router ρ) (e : Endpoint)
    (he : e ≠ Endpoint.btnBlacklistMac) (c : Context) (t : TelegramBot) (r : ρ) :
    (handle env R e c t r).bot.nameCache = t.nameCache := by
  cases e with
  | start => rfl
  | login => exact Login_nameCache env c t r
  | btnReauthenticateRouter =>
    show (LockMiddleware _ c t r).bot.nameCache = _
    rw [LockMiddleware_bot, ReauthenticateRouter_bot, ite_self]
  | btnWhitelistMac =>
    show (LockMiddleware _ c t r).bot.nameCache = _
    rw [LockMiddleware_bot, WhitelistMac_bot, ite_self]
  | btnBlacklistMac => exact absurd rfl he
  | btnClearBlacklist =>
    show (LockMiddleware _ c t r).bot.nameCache = _
    rw [LockMiddleware_bot, ClearBlacklist_bot, ite_self]
  | onCallback =>
    show (LockMiddleware _ c t r).bot.nameCache = _
    rw [LockMiddleware_bot, OnCallback_bot, ite_self]

theorem BlacklistMac_bot_of_error {ρ : Type} (env : Env) (R : Router ρ) (c : Context)
    (t : TelegramBot) (r : ρ) (ds : List Device) (err : Error) (r1 : ρ)
    (hlist : R.ListDevices r = ((ds, some err), r1)) : (BlacklistMac env R c t r).bot = t := by
  unfold BlacklistMac
  rw [hlist]

/-- C18: the frame of the core state, for every state, context and Router. (i) Every
dispatched event other than `/login` leaves `authGroup` as it is, and so does each handler
other than `Login` run on its own. (ii) Every dispatched event other than the Deny MAC
button leaves `nameCache` as it is, and so does each handler other than `BlacklistMac` run
on its own: `WhitelistMac`, `OnCallback` (whatever the Router returns),
`ReauthenticateRouter`, `ClearBlacklist` and `Login`; `BlacklistMac` itself leaves the
whole bot state as it is when `ListDevices` fails. -/
theorem core_state_frame {ρ : Type} (env : Env) (R : Router ρ) (c : Context)
    (t : TelegramBot) (r : ρ) :
    (∀ e, e ≠ Endpoint.login → (handle env R e c t r).bot.authGroup = t.authGroup) ∧
    (∀ e, e ≠ Endpoint.btnBlacklistMac →
      (handle env R e c t r).bot.nameCache = t.nameCache) ∧
    (ReauthenticateRouter R c t r).bot = t ∧
    (WhitelistMac env R c t r).bot = t ∧
    (ClearBlacklist R c t r).bot = t ∧
    (OnCallback R c t r).bot = t ∧
    (BlacklistMac env R c t r).bot.authGroup = t.authGroup ∧
    (Login env c t r).bot.nameCache = t.nameCache ∧
    (∀ ds err r1, R.ListDevices r = ((ds, some err), r1) →
      (BlacklistMac env R c t r).bot = t ∧
        (handle env R Endpoint.btnBlacklistMac c t r).bot = t) := by
  refine ⟨fun e he => handle_authGroup_of_ne_login env R e he c t r,
    fun e he => handle_nameCache_of_ne_blacklist env R e he c t r,
    ReauthenticateRouter_bot R c t r, WhitelistMac_bot env R c t r, ClearBlacklist_bot R c t r,
    OnCallback_bot R c t r, BlacklistMac_authGroup env R c t r, Login_nameCache env c t r, ?_⟩
  intro ds err r1 hlist
  have hb := BlacklistMac_bot_of_error env R c t r ds err r1 hlist
  refine ⟨hb, ?_⟩
  show (LockMiddleware _ c t r).bot = t
  rw [LockMiddleware_bot, hb, ite_self]

/-- C18 at work: an authenticated sender presses Allow MAC, then Deny MAC on a Router
that fails. -/
theorem core_state_frame_witness :
    (Endpoint.btnWhitelistMac ≠ Endpoint.login ∧
      Endpoint.btnWhitelistMac ≠ Endpoint.btnBlacklistMac ∧
      failRouter.ListDevices () = (([], some "boom"), ())) ∧
    (handle testEnv failRouter Endpoint.btnWhitelistMac ⟨1, [], false⟩
        ⟨GoMap.store GoMap.empty 1 true, GoMap.store GoMap.empty "AA" "phone"⟩ ()).bot.authGroup =
      GoMap.store GoMap.empty 1 true ∧
    (handle testEnv failRouter Endpoint.btnWhitelistMac ⟨1, [], false⟩
        ⟨GoMap.store GoMap.empty 1 true, GoMap.store GoMap.empty "AA" "phone"⟩ ()).bot.nameCache =
      GoMap.store GoMap.empty "AA" "phone" ∧
    (handle testEnv failRouter Endpoint.btnBlacklistMac ⟨1, [], false⟩
        ⟨GoMap.store GoMap.empty 1 true, GoMap.store GoMap.empty "AA" "phone"⟩ ()).bot.nameCache =
      GoMap.store GoMap.empty "AA" "phone" :=
  ⟨⟨by decide, by decide, rfl⟩,
    (core_state_frame testEnv failRouter ⟨1, [], false⟩
      ⟨GoMap.store GoMap.empty 1 true, GoMap.store GoMap.empty "AA" "phone"⟩ ()).1
      Endpoint.btnWhitelistMac (by decide),
    (core_state_frame testEnv failRouter ⟨1, [], false⟩
      ⟨GoMap.store GoMap.empty 1 true, GoMap.store GoMap.empty "AA" "phone"⟩ ()).2.1
      Endpoint.btnWhitelistMac (by decide),
    congrArg TelegramBot.nameCache
      ((core_state_frame testEnv failRouter ⟨1, [], false⟩
        ⟨GoMap.store GoMap.empty 1 true, GoMap.store GoMap.empty "AA" "phone"⟩
        ()).2.2.2.2.2.2.2.2 [] "boom" () rfl).2⟩

/-! ## Uppercase keys -/

theorem lower_range (c : Char) (h1 : 'a' ≤ c) (h2 : c ≤ 'z') :
    97 ≤ c.toNat ∧ c.toNat ≤ 122 := by
  rw [Char.le_def, UInt32.le_def] at h1 h2
  exact ⟨h1, h2⟩

theorem upperASCII_lower (n : Nat) (h1 : 97 ≤ n) (h2 : n ≤ 122) :
    upperASCII (upperASCII (Char.ofNat n)) = upperASCII (Char.ofNat n) ∧
      (upperASCII (Char.ofNat n)).toNat < 128 := by
  interval_cases n <;> decide

/-- The ASCII branch of `ToUpper` is idempotent on runes and stays within ASCII. -/
theorem upperASCII_spec (c : Char) :
    upperASCII (upperASCII c) = upperASCII c ∧
      (c.toNat < 128 → (upperASCII c).toNat < 128) := by
  by_cases h : 'a' ≤ c ∧ c ≤ 'z'
  · obtain ⟨h1, h2⟩ := lower_range c h.1 h.2
    have hn := upperASCII_lower c.toNat h1 h2
    rw [Char.ofNat_toNat] at hn
    exact ⟨hn.1, fun _ => hn.2⟩
  · have hc : upperASCII c = c := by
      unfold upperASCII
      rw [if_neg]
      simpa using h
    rw [hc, hc]
    exact ⟨rfl, fun h => h⟩

/-- When the case tables are idempotent and never yield an ASCII small letter,
`ToUpper` is idempotent. -/
theorem ToUpper_idem (f : Char → Char) (hidem : ∀ c, f (f c) = f c)
    (hcap : ∀ c, upperASCII (f c) = f c) (s : String) :
    ToUpper f (ToUpper f s) = ToUpper f s := by
  by_cases hs : s.data.all (fun c => decide (c.toNat < 128)) = true
  · have h1 : ToUpper f s = String.mk (s.data.map upperASCII) := by
      unfold ToUpper
      rw [if_pos hs]
    have h2 : (s.data.map upperASCII).all (fun c => decide (c.toNat < 128)) = true := by
      rw [List.all_eq_true] at hs ⊢
      intro x hx
      obtain ⟨y, hy, rfl⟩ := List.mem_map.mp hx
      have hy2 := hs y hy
      simp only [decide_eq_true_eq] at hy2 ⊢
      exact (upperASCII_spec y).2 hy2
    rw [h1]
    unfold ToUpper
    rw [if_pos h2]
    simp [List.map_map, Function.comp_def, (fun c => (upperASCII_spec c).1)]
  · have h1 : ToUpper f s = String.mk (s.data.map f) := by
      unfold ToUpper
      rw [if_neg hs]
    rw [h1]
    unfold ToUpper
    split <;> simp [List.map_map, Function.comp_def, hidem, hcap]

theorem remember_upper_keys (env : Env)
    (hidem : ∀ s, ToUpper env.unicodeToUpper (ToUpper env.unicodeToUpper s) =
      ToUpper env.unicodeToUpper s)
    (t : TelegramBot) (d : Device)
    (ht : ∀ k, t.nameCache k ≠ none → ToUpper env.unicodeToUpper k = k) :
    ∀ k, (remember env t d).nameCache k ≠ none → ToUpper env.unicodeToUpper k = k := by
  intro k hk
  by_cases hkd : k = ToUpper env.unicodeToUpper d.MacAddress
  · rw [hkd]
    exact hidem _
  · apply ht k
    simpa [remember, GoMap.store, hkd] using hk

theorem foldl_remember_upper_keys (env : Env)
    (hidem : ∀ s, ToUpper env.unicodeToUpper (ToUpper env.unicodeToUpper s) =
      ToUpper env.unicodeToUpper s)
    (ds : List Device) (t : TelegramBot)
    (ht : ∀ k, t.nameCache k ≠ none → ToUpper env.unicodeToUpper k = k) :
    ∀ k, (ds.foldl (remember env) t).nameCache k ≠ none →
      ToUpper env.unicodeToUpper k = k := by
  induction ds generalizing t with
  | nil => exact ht
  | cons d ds ih =>
    rw [List.foldl_cons]
    exact ih _ (remember_upper_keys env hidem t d ht)

/-- One event keeps the keys of `nameCache` in uppercase form. -/
theorem handle_upper_keys {ρ : Type} (env : Env) (R : Router ρ)
    (hidem : ∀ s, ToUpper env.unicodeToUpper (ToUpper env.unicodeToUpper s) =
      ToUpper env.unicodeToUpper s)
    (e : Endpoint) (c : Context) (t : TelegramBot) (r : ρ)
    (ht : ∀ k, t.nameCache k ≠ none → ToUpper env.unicodeToUpper k = k) :
    ∀ k, (handle env R e c t r).bot.nameCache k ≠ none →
      ToUpper env.unicodeToUpper k = k := by
  by_cases he : e = Endpoint.btnBlacklistMac
  · subst he
    show ∀ k, (LockMiddleware _ c t r).bot.nameCache k ≠ none → _
    rw [LockMiddleware_bot]
    split
    · unfold BlacklistMac
      split
      · exact ht
      · exact foldl_remember_upper_keys env hidem _ t ht
    · exact ht
  · rw [handle_nameCache_of_ne_blacklist env R e he]
    exact ht

/-- A handled sequence of events keeps the keys of `nameCache` in uppercase form. -/
theorem runUpdates_upper_keys {ρ : Type} (env : Env) (R : Router ρ)
    (hidem : ∀ s, ToUpper env.unicodeToUpper (ToUpper env.unicodeToUpper s) =
      ToUpper env.unicodeToUpper s)
    (us : List Update) (t0 : TelegramBot) (r0 : ρ) (t : TelegramBot) (r : ρ)
    (ht0 : ∀ k, t0.nameCache k ≠ none → ToUpper env.unicodeToUpper k = k)
    (hrun : runUpdates env R t0 r0 us = some (t, r)) :
    ∀ k, t.nameCache k ≠ none → ToUpper env.unicodeToUpper k = k := by
  induction us generalizing t0 r0 with
  | nil =>
    simp only [runUpdates, Option.some.injEq, Prod.mk.injEq] at hrun
    rw [← hrun.1]
    exact ht0
  | cons u us ih =>
    have hstep := handle_upper_keys env R hidem u.endpoint u.ctx t0 r0 ht0
    unfold runUpdates at hrun
    rcases hout : handle env R u.endpoint u.ctx t0 r0 with ⟨t1, r1, es, ex⟩
    rw [hout] at hrun hstep
    cases ex with
    | returned => exact ih t1 r1 hstep hrun
    | panicked => simp at hrun

/-- C19: let the case tables behind `strings.ToUpper` be idempotent and never yield an
ASCII small letter. In every state reached from `NewTelegramBot` by a handled sequence of
events, with any Router, every key `k` of `nameCache` satisfies `ToUpper k = k`; hence two
keys with the same uppercase form are the same key. -/
theorem nameCache_keys_upper {ρ : Type} (env : Env) (R : Router ρ)
    (hidem : ∀ c, env.unicodeToUpper (env.unicodeToUpper c) = env.unicodeToUpper c)
    (hcap : ∀ c, upperASCII (env.unicodeToUpper c) = env.unicodeToUpper c)
    (r0 : ρ) (us : List Update) (t : TelegramBot) (r : ρ)
    (hrun : runUpdates env R NewTelegramBot r0 us = some (t, r)) :
    (∀ k, t.nameCache k ≠ none → ToUpper env.unicodeToUpper k = k) ∧
      (∀ k1 k2, t.nameCache k1 ≠ none → t.nameCache k2 ≠ none →
        ToUpper env.unicodeToUpper k1 = ToUpper env.unicodeToUpper k2 → k1 = k2) := by
  have hkeys := runUpdates_upper_keys env R (ToUpper_idem env.unicodeToUpper hidem hcap) us
    NewTelegramBot r0 t r (fun k hk => absurd rfl hk) hrun
  refine ⟨hkeys, ?_⟩
  intro k1 k2 h1 h2 h
  rw [← hkeys k1 h1, ← hkeys k2 h2]
  exact h

/-- C19 at work: sender 1 logs in and lists a device whose MAC is in small letters; the
cache then has the key `AA:BB:CC:DD:EE:FF` and not the key `aa:bb:cc:dd:ee:ff`. -/
theorem nameCache_keys_upper_witness :
    ((∀ c, upperEnv.unicodeToUpper (upperEnv.unicodeToUpper c) = upperEnv.unicodeToUpper c) ∧
      (∀ c, upperASCII (upperEnv.unicodeToUpper c) = upperEnv.unicodeToUpper c)) ∧
    ∃ t r, runUpdates upperEnv scriptRouter NewTelegramBot [[⟨"aa:bb:cc:dd:ee:ff", "phone"⟩]]
        [⟨Endpoint.login, ⟨1, ["secret"], false⟩⟩,
          ⟨Endpoint.btnBlacklistMac, ⟨1, [], false⟩⟩] = some (t, r) ∧
      t.nameCache "AA:BB:CC:DD:EE:FF" = some "phone" ∧
      t.nameCache "aa:bb:cc:dd:ee:ff" = none ∧
      (∀ k, t.nameCache k ≠ none → ToUpper upperEnv.unicodeToUpper k = k) :=
  ⟨⟨fun c => (upperASCII_spec c).1, fun c => (upperASCII_spec c).1⟩,
    _, _, rfl, by decide, by decide,
    (nameCache_keys_upper upperEnv scriptRouter (fun c => (upperASCII_spec c).1)
      (fun c => (upperASCII_spec c).1) [[⟨"aa:bb:cc:dd:ee:ff", "phone"⟩]]
      [⟨Endpoint.login, ⟨1, ["secret"], false⟩⟩, ⟨Endpoint.btnBlacklistMac, ⟨1, [], false⟩⟩]
      _ _ rfl).1⟩

end Telegram
